import Mathlib

/-!
Verification of the aws-redis-opensearch pipeline (shallow embedding).

The development embeds the two Lambda modules of the repository:
`src/lambda_functions/data_processor.py` (namespace `DataProcessor`) and
`src/lambda_functions/api_handler.py` (namespace `ApiHandler`).

Modelling conventions:
- The Redis key-value store is a pair of association lists (values and
  remaining TTLs); Redis commands are pure state transformers.  Commands
  that Redis rejects (for example a wrong value type) return `Except.error`,
  matching a raised exception in the Python client.
- The OpenSearch client is abstracted as an oracle function supplied to
  the operation that uses it (`bulk`, `indices.exists` or `indices.create`,
  `search`), since its behaviour lives on the network, outside the source.
- JSON serialization of a formatted search-result object is modelled
  abstractly: the constructor `RVal.json r` stands for the string
  `json.dumps r`, so that `json.loads (json.dumps r) = r` holds by
  construction.  No claim inspects the serialized text itself.
- Numeric record fields that the code only ever passes through `str(...)`
  (prices, ratings, scores) are carried as their rendered strings or as
  integers; no claim performs arithmetic on them.
-/

/-- Lookup in an association list with string keys (first match). -/
def alLookup {α : Type} : List (String × α) → String → Option α
  | [], _ => none
  | p :: rest, k => if p.1 = k then some p.2 else alLookup rest k

/-- Update an association list in place, appending when the key is new. -/
def alUpdate {α : Type} : List (String × α) → String → α → List (String × α)
  | [], k, v => [(k, v)]
  | p :: rest, k, v => if p.1 = k then (k, v) :: rest else p :: alUpdate rest k v

/-- Parse of a decimal digit run, accumulator style. -/
def parseDigitsAux : List Char → Nat → Option Nat
  | [], acc => some acc
  | c :: cs, acc =>
    if c.isDigit then parseDigitsAux cs (acc * 10 + (c.toNat - 48)) else none

/-- Model of the Python `int(s)` conversion: an optional sign followed by
one or more decimal digits; anything else raises `ValueError`, modelled as
`none`.  (Surrounding whitespace and underscore separators, which CPython
also accepts, are not modelled; no claim depends on them.) -/
def pyInt (s : String) : Option Int :=
  match s.data with
  | [] => none
  | '-' :: cs =>
    if cs.isEmpty then none else (parseDigitsAux cs 0).map (fun n => -(n : Int))
  | '+' :: cs =>
    if cs.isEmpty then none else (parseDigitsAux cs 0).map (fun n => (n : Int))
  | cs => (parseDigitsAux cs 0).map (fun n => (n : Int))

/-- Decimal digit character for a value below ten. -/
def digitChar (n : Nat) : Char := Char.ofNat (48 + n)

/-- Decimal rendering of a natural number, fuel-structured so that it
reduces inside the kernel. -/
def natDigits : Nat → Nat → List Char
  | 0, _ => []
  | fuel + 1, n =>
    if n < 10 then [digitChar n]
    else natDigits fuel (n / 10) ++ [digitChar (n % 10)]

/-- Model of the Python `str(n)` rendering of a natural number. -/
def natToStr (n : Nat) : String := ⟨natDigits (n + 1) n⟩

/-- Model of the Python `str(i)` rendering of an integer. -/
def intToStr (i : Int) : String :=
  if i < 0 then "-" ++ natToStr i.natAbs else natToStr i.natAbs

/-- ASCII lowering of one character, as used by `str.lower()` on the
product names generated by this repository (ASCII only). -/
def charLowerAscii (c : Char) : Char :=
  if 'A' ≤ c ∧ c ≤ 'Z' then Char.ofNat (c.toNat + 32) else c

/-- Model of the Python `s.lower()`. -/
def strLower (s : String) : String := ⟨s.data.map charLowerAscii⟩

/-- Model of the Python `str(b)` rendering of a boolean. -/
def pyBoolStr (b : Bool) : String := if b then "True" else "False"

/-- Formatted search-result object built by `handle_search` (api_handler.py
lines 230-234): the list of `_source` documents (carried abstractly as
strings), the resolved total, and the optional maximum relevance score. -/
structure Results where
  hits : List String
  total : Int
  max_score : Option Int
deriving DecidableEq, Repr

/-- Value stored under one Redis key.  `int` marks an integer-valued string
as maintained by `INCR`; `json r` stands for the serialized text
`json.dumps r` of a formatted search result. -/
inductive RVal where
  | str (s : String)
  | int (n : Int)
  | json (r : Results)
  | hash (fields : List (String × String))
  | setv (members : List String)
  | zset (pairs : List (String × Int))
  | list (items : List String)
deriving DecidableEq, Repr

/-- Redis `TYPE` tag of a stored value. -/
def RVal.redisType : RVal → String
  | .str _ => "string"
  | .int _ => "string"
  | .json _ => "string"
  | .hash _ => "hash"
  | .setv _ => "set"
  | .zset _ => "zset"
  | .list _ => "list"

/-- State of the Redis store: current values and remaining TTLs in
seconds.  A key absent from `ttls` has no expiry. -/
structure RedisDB where
  data : List (String × RVal)
  ttls : List (String × Int)
deriving DecidableEq, Repr

/-- Value currently stored under a key. -/
def dbGet (db : RedisDB) (k : String) : Option RVal := alLookup db.data k

/-- Store a value under a key, leaving TTLs unchanged. -/
def dbSetVal (db : RedisDB) (k : String) (v : RVal) : RedisDB :=
  ⟨alUpdate db.data k v, db.ttls⟩

/-- Redis `TYPE`: the type tag of the key, `"none"` when absent. -/
def dbType (db : RedisDB) (k : String) : String :=
  match dbGet db k with
  | some v => v.redisType
  | none => "none"

/-- Redis `EXPIRE`: sets the TTL of an existing key; no-op when the key is
absent (EXPIRE then returns 0). -/
def rExpire (db : RedisDB) (k : String) (t : Int) : RedisDB :=
  if (dbGet db k).isSome then ⟨db.data, alUpdate db.ttls k t⟩ else db

/-- Redis `SET key value EX ttl` (also covers `SETEX`): unconditional
overwrite of value and TTL, for any prior type. -/
def rSet (db : RedisDB) (k : String) (v : RVal) (ex : Int) : RedisDB :=
  ⟨alUpdate db.data k v, alUpdate db.ttls k ex⟩

/-- Merge of hash fields: entries of `upd` override `old`, other fields
persist (Redis `HSET` with a mapping). -/
def hashMerge (old upd : List (String × String)) : List (String × String) :=
  upd.foldl (fun acc p => alUpdate acc p.1 p.2) old

/-- Redis `HSET key mapping`: merges fields into the hash at the key;
raises `WRONGTYPE` when the key holds a non-hash value. -/
def rHset (db : RedisDB) (k : String) (fields : List (String × String)) :
    Except String RedisDB :=
  match dbGet db k with
  | none => .ok (dbSetVal db k (.hash fields))
  | some (.hash old) => .ok (dbSetVal db k (.hash (hashMerge old fields)))
  | some _ => .error ("WRONGTYPE hset " ++ k)

/-- Redis `INCR`: increments the integer at the key, creating it at 1;
raises when the stored value is not an integer. -/
def rIncr (db : RedisDB) (k : String) : Except String RedisDB :=
  match dbGet db k with
  | none => .ok (dbSetVal db k (.int 1))
  | some (.int n) => .ok (dbSetVal db k (.int (n + 1)))
  | some (.str s) =>
    match pyInt s with
    | some n => .ok (dbSetVal db k (.int (n + 1)))
    | none => .error ("value is not an integer " ++ k)
  | some _ => .error ("WRONGTYPE incr " ++ k)

/-- Update of one member's score inside a sorted set. -/
def zUpdate : List (String × Int) → String → Int → List (String × Int)
  | [], member, d => [(member, d)]
  | p :: rest, member, d =>
    if p.1 = member then (member, p.2 + d) :: rest else p :: zUpdate rest member d

/-- Redis `ZINCRBY`: adds to a member's score, creating set or member as
needed; raises `WRONGTYPE` on a non-sorted-set value. -/
def rZincrby (db : RedisDB) (k : String) (d : Int) (member : String) :
    Except String RedisDB :=
  match dbGet db k with
  | none => .ok (dbSetVal db k (.zset [(member, d)]))
  | some (.zset l) => .ok (dbSetVal db k (.zset (zUpdate l member d)))
  | some _ => .error ("WRONGTYPE zincrby " ++ k)

/-- Redis `SADD`: adds a member to a set, creating it as needed; raises
`WRONGTYPE` on a non-set value. -/
def rSadd (db : RedisDB) (k : String) (member : String) : Except String RedisDB :=
  match dbGet db k with
  | none => .ok (dbSetVal db k (.setv [member]))
  | some (.setv l) =>
    .ok (dbSetVal db k (.setv (if member ∈ l then l else l ++ [member])))
  | some _ => .error ("WRONGTYPE sadd " ++ k)

/-- Redis `TTL`: -2 for a missing key, -1 for a key without expiry,
otherwise the remaining TTL. -/
def rTtl (db : RedisDB) (k : String) : Int :=
  match dbGet db k with
  | none => -2
  | some _ =>
    match alLookup db.ttls k with
    | some t => t
    | none => -1

/-- Glob matching of Redis `KEYS` patterns over character lists,
supporting `*` and `?` wildcards.  Structured on a fuel argument so that
it reduces inside the kernel; every recursive call shrinks
`p.length + s.length`, so `p.length + s.length + 1` fuel always suffices. -/
def globMatchFuel : Nat → List Char → List Char → Bool
  | 0, _, _ => false
  | fuel + 1, p, s =>
    match p, s with
    | [], rest => rest.isEmpty
    | '*' :: ps, [] => globMatchFuel fuel ps []
    | '*' :: ps, c :: cs =>
      globMatchFuel fuel ps (c :: cs) || globMatchFuel fuel ('*' :: ps) cs
    | '?' :: _, [] => false
    | '?' :: ps, _ :: cs => globMatchFuel fuel ps cs
    | _ :: _, [] => false
    | pc :: ps, c :: cs => pc == c && globMatchFuel fuel ps cs

/-- Glob matching of a Redis `KEYS` pattern against a key. -/
def globMatch (pat s : String) : Bool :=
  globMatchFuel (pat.data.length + s.data.length + 1) pat.data s.data

/-- Redis `KEYS pattern`: every stored key matching the pattern. -/
def dbKeys (db : RedisDB) (pat : String) : List String :=
  (db.data.map Prod.fst).filter (fun k => globMatch pat k)

/-- Redis `HGETALL`: field map of a hash key, `[]` when absent.  The
wrong-type case cannot be reached from the call sites in the source, which
guard it with a `TYPE` check or catch the raised error. -/
def rHgetall (db : RedisDB) (k : String) : List (String × String) :=
  match dbGet db k with
  | some (.hash l) => l
  | _ => []

/-- Redis `SMEMBERS` as a list, `[]` when absent or of another type. -/
def rSmembers (db : RedisDB) (k : String) : List String :=
  match dbGet db k with
  | some (.setv l) => l
  | _ => []

/-- Redis `LRANGE key 0 -1`, `[]` when absent or of another type. -/
def rLrange (db : RedisDB) (k : String) : List String :=
  match dbGet db k with
  | some (.list l) => l
  | _ => []

/-- Insertion into a score-ascending list, keeping earlier entries first
among equal scores. -/
def insertByScore (p : String × Int) : List (String × Int) → List (String × Int)
  | [] => [p]
  | q :: rest => if p.2 < q.2 then p :: q :: rest else q :: insertByScore p rest

/-- Redis `ZRANGE key 0 -1 WITHSCORES`: member-score pairs in ascending
score order. -/
def rZrangeWithScores (db : RedisDB) (k : String) : List (String × Int) :=
  match dbGet db k with
  | some (.zset l) => (l.reverse.foldl (fun acc p => insertByScore p acc) [])
  | _ => []

namespace DataProcessor

/-- User event record (data_processor.py).  Fields the code reads with
`event[...]` are mandatory; fields read with `event.get(...)` or guarded by
an `in` test are optional.  `location` carries the `json.dumps` rendering
of the location object. -/
structure Event where
  id : String
  user_id : String
  session_id : String
  timestamp : String
  event_type : String
  device_type : Option String
  location : Option String
  product_id : Option String
  search_query : Option String
deriving DecidableEq, Repr

/-- Product record (data_processor.py).  Numeric fields are carried as the
strings the code stores (`str(product[...])`). -/
structure Product where
  id : String
  name : String
  category : String
  price : String
  brand : String
  rating : Option String
  stock_quantity : Option String
  is_active : Option Bool
deriving DecidableEq, Repr

/-- Embedding of `DataProcessor.cache_user_data` (lines 314-358).  `today`
is the `datetime.utcnow().strftime` date string.  A raised Redis error
aborts the remaining mutations for this record; already-applied mutations
of the record are not observed by any theorem below and are dropped with
the error. -/
def cache_user_data (today : String) (db : RedisDB) (e : Event) :
    Except String RedisDB := do
  let db ← rHset db ("session:" ++ e.session_id)
    [("user_id", e.user_id), ("last_activity", e.timestamp),
     ("last_event", e.event_type), ("device_type", e.device_type.getD "unknown"),
     ("location", e.location.getD "\x7b\x7d")]
  let db := rExpire db ("session:" ++ e.session_id) 3600
  let db ← rHset db ("user:" ++ e.user_id)
    [("last_activity", e.timestamp), ("last_event", e.event_type),
     ("current_session", e.session_id)]
  let db := rExpire db ("user:" ++ e.user_id) 86400
  let db ← rIncr db ("counters:" ++ today ++ ":" ++ e.event_type)
  let db := rExpire db ("counters:" ++ today ++ ":" ++ e.event_type) (86400 * 7)
  let db ← match e.product_id with
    | some pid => do
      let d ← rZincrby db "popular_products" 1 pid
      pure (rExpire d "popular_products" 86400)
    | none => pure db
  if e.event_type = "search" then
    match e.search_query with
    | some q => do
      let d ← rZincrby db ("search_queries:" ++ today) 1 q
      pure (rExpire d ("search_queries:" ++ today) (86400 * 7))
    | none => pure db
  else pure db

/-- Embedding of `DataProcessor.cache_product_data` (lines 360-384). -/
def cache_product_data (db : RedisDB) (p : Product) : Except String RedisDB := do
  let db ← rHset db ("product:" ++ p.id)
    [("name", p.name), ("category", p.category), ("price", p.price),
     ("brand", p.brand), ("rating", p.rating.getD "0"),
     ("stock_quantity", p.stock_quantity.getD "0"),
     ("is_active", pyBoolStr (p.is_active.getD true))]
  let db := rExpire db ("product:" ++ p.id) 3600
  let db ← rSadd db ("category_products:" ++ p.category) p.id
  let db := rExpire db ("category_products:" ++ p.category) 86400
  pure (rSet db ("product_search:" ++ strLower p.name) (.str p.id) 3600)

/-- One entry of the OpenSearch bulk request body: the action metadata
line or a document line. -/
inductive BulkAction where
  | meta (index id : String)
  | docE (e : Event)
  | docP (p : Product)
deriving DecidableEq, Repr

/-- Response of `opensearch_client.bulk`; the code only reads the truthy
`errors` flag. -/
structure BulkResp where
  errors : Bool
deriving DecidableEq, Repr

/-- Bulk request lines contributed by one event (lines 244-250). -/
def eventBulkActions (e : Event) : List BulkAction :=
  [.meta "user-events" e.id, .docE e]

/-- Bulk request lines contributed by one product (lines 286-292). -/
def productBulkActions (p : Product) : List BulkAction :=
  [.meta "product-catalog" p.id, .docP p]

/-- The per-record loop of `process_user_events` (lines 238-256): returns
the processed count, the Redis state, and the accumulated bulk actions; a
record whose cache write raises is logged and skipped. -/
def processEventsLoop (today : String) (db : RedisDB) :
    List Event → Nat × RedisDB × List BulkAction
  | [] => (0, db, [])
  | e :: rest =>
    match cache_user_data today db e with
    | .ok db1 =>
      let r := processEventsLoop today db1 rest
      (r.1 + 1, r.2.1, eventBulkActions e ++ r.2.2)
    | .error _ => processEventsLoop today db rest

/-- The per-record loop of `process_products` (lines 280-298). -/
def processProductsLoop (db : RedisDB) :
    List Product → Nat × RedisDB × List BulkAction
  | [] => (0, db, [])
  | p :: rest =>
    match cache_product_data db p with
    | .ok db1 =>
      let r := processProductsLoop db1 rest
      (r.1 + 1, r.2.1, productBulkActions p ++ r.2.2)
    | .error _ => processProductsLoop db rest

/-- Embedding of `DataProcessor.process_user_events` (lines 230-270).
`bulk` is the OpenSearch bulk-call oracle.  A response whose `errors`
field is truthy is only logged; an exception raised by the bulk call
itself propagates.  The bulk call is skipped when no actions accumulated. -/
def process_user_events (bulk : List BulkAction → Except String BulkResp)
    (today : String) (db : RedisDB) (events : List Event) :
    Except String (Nat × RedisDB) :=
  let r := processEventsLoop today db events
  if r.2.2.isEmpty then .ok (r.1, r.2.1)
  else
    match bulk r.2.2 with
    | .ok _ => .ok (r.1, r.2.1)
    | .error m => .error m

/-- Embedding of `DataProcessor.process_products` (lines 272-312). -/
def process_products (bulk : List BulkAction → Except String BulkResp)
    (db : RedisDB) (products : List Product) : Except String (Nat × RedisDB) :=
  let r := processProductsLoop db products
  if r.2.2.isEmpty then .ok (r.1, r.2.1)
  else
    match bulk r.2.2 with
    | .ok _ => .ok (r.1, r.2.1)
    | .error m => .error m

/-- Step of `create_opensearch_indices` for one index (lines 216-228):
create only when absent; an exception from the existence check or the
create call is logged and re-raised.  Returns the names actually created. -/
def createIndexIfAbsent (existsQ : String → Bool)
    (createQ : String → Except String Unit) (name : String) :
    Except String (List String) :=
  if existsQ name then .ok []
  else
    match createQ name with
    | .ok _ => .ok [name]
    | .error m => .error m

/-- Embedding of `DataProcessor.create_opensearch_indices` (lines 136-228)
over the two known indices, with the existence and creation calls as
oracles. -/
def create_opensearch_indices (existsQ : String → Bool)
    (createQ : String → Except String Unit) : Except String (List String) := do
  let l1 ← createIndexIfAbsent existsQ createQ "user-events"
  let l2 ← createIndexIfAbsent existsQ createQ "product-catalog"
  pure (l1 ++ l2)

/-- Payload of one invocation (lines 433-455): optional `events` list,
optional `products` list, and `singleEvent = some e` when the payload
itself carries an `event_type` field (the flattened single-event form). -/
structure BatchData where
  events : Option (List Event)
  products : Option (List Product)
  singleEvent : Option Event
deriving Repr

/-- Embedding of `process_data_batch` (lines 433-455).  On the flattened
single-event path the code discards the return value of
`process_user_events([data])` and adds 1 unconditionally. -/
def process_data_batch (bulkE bulkP : List BulkAction → Except String BulkResp)
    (today : String) (db : RedisDB) (d : BatchData) :
    Except String (Nat × RedisDB) := do
  let r1 ← match d.events with
    | some evs => process_user_events bulkE today db evs
    | none => pure ((0 : Nat), db)
  let r2 ← match d.products with
    | some ps => process_products bulkP r1.2 ps
    | none => pure ((0 : Nat), r1.2)
  match d.singleEvent with
  | some e => do
    let r3 ← process_user_events bulkE today r2.2 [e]
    pure (r1.1 + r2.1 + 1, r3.2)
  | none => pure (r1.1 + r2.1, r2.2)

/-- Invocation shapes of the processing Lambda: a direct payload or a
queue envelope whose record bodies are payloads (lines 399-411). -/
inductive DPInvocation where
  | direct (d : BatchData)
  | records (bodies : List BatchData)

/-- Response of the processing Lambda: 200 with the total count on any
completion, 500 with the error text on a raised exception. -/
inductive DPResponse where
  | success (totalProcessed : Nat)
  | failure (errMsg : String)
deriving DecidableEq, Repr

/-- HTTP-style status of a processing-Lambda response. -/
def DPResponse.statusCode : DPResponse → Nat
  | .success _ => 200
  | .failure _ => 500

/-- Sequential processing of the records of a queue envelope (lines
400-408): counts accumulate; a raised exception propagates. -/
def processRecordsList (bulkE bulkP : List BulkAction → Except String BulkResp)
    (today : String) : RedisDB → List BatchData → Except String (Nat × RedisDB)
  | db, [] => .ok (0, db)
  | db, d :: rest => do
    let r1 ← process_data_batch bulkE bulkP today db d
    let r2 ← processRecordsList bulkE bulkP today r1.2 rest
    pure (r1.1 + r2.1, r2.2)

/-- Embedding of the processing Lambda's `lambda_handler` (lines 386-431):
ensure indices, process the payload, answer 200 with the total or 500 with
the error. -/
def lambda_handler (existsQ : String → Bool)
    (createQ : String → Except String Unit)
    (bulkE bulkP : List BulkAction → Except String BulkResp)
    (today : String) (db : RedisDB) (inv : DPInvocation) : DPResponse :=
  match create_opensearch_indices existsQ createQ with
  | .error m => .failure m
  | .ok _ =>
    match
      (match inv with
       | .direct d => process_data_batch bulkE bulkP today db d
       | .records bs => processRecordsList bulkE bulkP today db bs) with
    | .ok r => .success r.1
    | .error m => .failure m

end DataProcessor

namespace ApiHandler

/-- Lazily-initialized client state of one `APIHandler` instance: whether
the OpenSearch and Redis clients have been constructed. -/
structure ApiState where
  osInited : Bool
  redisInited : Bool
deriving DecidableEq, Repr

/-- Redis command issued by a handler, recorded in invocation order.
`ping` is the connection test performed while initializing the client
(api_handler.py line 126). -/
inductive ROp where
  | ping
  | rkeys (pat : String)
  | rexists (k : String)
  | rtypeOf (k : String)
  | rget (k : String)
  | rhgetall (k : String)
  | rsmembers (k : String)
  | rzrange (k : String)
  | rlrange (k : String)
  | rttl (k : String)
  | rsetex (k : String)
deriving DecidableEq, Repr

/-- Raw OpenSearch search response as read by the code: the hit list (each
hit reduced to its `_source`, carried abstractly), the resolved
`hits.total` value (the `isinstance` dict check of line 232 resolved), and
`hits.max_score`. -/
structure OSSearchResp where
  hits : List String
  totalValue : Int
  maxScore : Option Int
deriving DecidableEq, Repr

/-- Search request body built by `handle_search` (lines 206-224): the
match-all shape sorted by timestamp, or the multi-field fuzzy-match shape
over name/description/category/search_query/event_type sorted by score
then timestamp.  The fixed field lists and sort orders are constants of
the shape. -/
inductive SearchBody where
  | matchAll (size : Int)
  | multiMatch (q : String) (size : Int)
deriving DecidableEq, Repr

/-- Environment of one API invocation: whether constructing each client
would succeed (Redis construction includes the `ping` connection test),
and the OpenSearch search call as an oracle taking the index name and the
request body. -/
structure ApiEnv where
  osInitOk : Bool
  redisInitOk : Bool
  osSearch : String → SearchBody → Except String OSSearchResp

/-- Embedding of `APIHandler.get_opensearch_client` (lines 51-85):
constructs the client on first use; a construction failure raises. -/
def get_opensearch_client (env : ApiEnv) (s : ApiState) : Except String ApiState :=
  if s.osInited then .ok s
  else if env.osInitOk then .ok { s with osInited := true }
  else .error "Error initializing OpenSearch client"

/-- Embedding of `APIHandler.get_redis_client` (lines 87-133): constructs
the client and pings it on first use; a construction or ping failure
raises.  The emitted trace records the ping. -/
def get_redis_client (env : ApiEnv) (s : ApiState) :
    Except String (ApiState × List ROp) :=
  if s.redisInited then .ok (s, [])
  else if env.redisInitOk then .ok ({ s with redisInited := true }, [.ping])
  else .error "Error initializing Redis client"

/-- Query-string parameters of a request; `none` models an absent
parameter. -/
structure QueryParams where
  q : Option String
  index : Option String
  size : Option String
  key : Option String
  pattern : Option String
  user_id : Option String
deriving DecidableEq, Repr

/-- Python truthiness of an optional string parameter: absent and empty
are falsy. -/
def truthy : Option String → Bool
  | none => false
  | some s => !(s == "")

/-- The `int(query_params.get('size', 10))` step of line 187: default 10,
raise on an unparseable explicit value. -/
def parseSize (sz : Option String) : Except String Int :=
  match sz with
  | none => .ok 10
  | some t =>
    match pyInt t with
    | some n => .ok n
    | none => .error ("invalid literal for int with base 10: " ++ t)

/-- Search-cache fingerprint key of line 190. -/
def searchCacheKey (index query : String) (size : Int) : String :=
  "search_cache:" ++ index ++ ":" ++ query ++ ":" ++ intToStr size

/-- Fingerprint key of a request after parameter defaulting, failing as
the size conversion does. -/
def requestCacheKey (p : QueryParams) : Except String String := do
  let size ← parseSize p.size
  pure (searchCacheKey (p.index.getD "user-events") (p.q.getD "*") (min size 100))

/-- Formatting of the OpenSearch response (lines 230-234). -/
def formatResults (r : OSSearchResp) : Results :=
  { hits := r.hits, total := r.totalValue, max_score := r.maxScore }

/-- Response body of `handle_search`: 200 with query, index, cached flag
and results, or the caught-exception 500 of line 253. -/
inductive SearchResp where
  | results (query index : String) (cached : Bool) (res : Results)
  | failed (msg : String)
deriving DecidableEq, Repr

/-- HTTP-style status of a search response. -/
def SearchResp.statusCode : SearchResp → Nat
  | .results _ _ _ _ => 200
  | .failed _ => 500

/-- Body of `handle_search` after client initialization (lines 185-253).
The cache read of lines 191-202 sits in a try block: only a stored search
result (`RVal.json`) is returned as a hit; any other stored value fails
the `json.loads` or the `GET` inside the try and degrades to a miss, as
does an absent key.  On a miss the built query is executed; a search
failure is caught as a 500 body; on success the formatted results are
cached for 300 seconds (best-effort) and returned with `cached = false`. -/
def searchAfterInit (osSearch : String → SearchBody → Except String OSSearchResp)
    (db : RedisDB) (p : QueryParams) :
    Except String (SearchResp × RedisDB × List ROp) := do
  let query := p.q.getD "*"
  let index := p.index.getD "user-events"
  let size0 ← parseSize p.size
  let size := min size0 100
  let ck := searchCacheKey index query size
  match dbGet db ck with
  | some (.json r) => pure (.results query index true r, db, [.rget ck])
  | _ =>
    let body := if query = "*" then SearchBody.matchAll size
                else SearchBody.multiMatch query size
    match osSearch index body with
    | .error m => pure (.failed ("Search failed: " ++ m), db, [.rget ck])
    | .ok resp =>
      let res := formatResults resp
      let db1 := rSet db ck (.json res) 300
      pure (.results query index false res, db1, [.rget ck, .rsetex ck])

/-- Embedding of `handle_search` (lines 180-253): both clients are
initialized first (lines 182-183), then the body runs. -/
def handle_search (env : ApiEnv) (db : RedisDB) (s : ApiState) (p : QueryParams) :
    Except String (SearchResp × RedisDB × ApiState × List ROp) := do
  let s1 ← get_opensearch_client env s
  let r2 ← get_redis_client env s1
  match searchAfterInit env.osSearch db p with
  | .ok t => pure (t.1, t.2.1, r2.1, r2.2 ++ t.2.2)
  | .error m => .error m

/-- Result of the API Lambda for a routed request: the handler's response,
or the 500 error body produced by the top-level except of lines 163-165
when the handler raised. -/
inductive ApiGatewayResult where
  | handled (r : SearchResp) (db : RedisDB) (s : ApiState) (tr : List ROp)
  | serverError (msg : String)
deriving DecidableEq, Repr

/-- HTTP-style status of a routed-search result. -/
def ApiGatewayResult.statusCode : ApiGatewayResult → Nat
  | .handled r _ _ _ => r.statusCode
  | .serverError _ => 500

/-- Embedding of the API `lambda_handler` (lines 135-165) specialized to a
GET of path `/search`: the handler's return value, with a raised exception
turned into the 500-equivalent error body. -/
def lambda_handler_search (env : ApiEnv) (db : RedisDB) (s : ApiState)
    (p : QueryParams) : ApiGatewayResult :=
  match handle_search env db s p with
  | .ok t => .handled t.1 t.2.1 t.2.2.1 t.2.2.2
  | .error m => .serverError m

/-- Decoded value of one key as reported by the cache-lookup handler.
`jsonText r` is the serialized search-result text returned raw by `GET`. -/
inductive LookupVal where
  | str (s : String)
  | hash (fields : List (String × String))
  | setv (members : List String)
  | zset (pairs : List (String × Int))
  | list (items : List String)
  | jsonText (r : Results)
deriving DecidableEq, Repr

/-- Raw `GET` of a string-typed key, as a lookup value. -/
def getStringVal (v : RVal) : LookupVal :=
  match v with
  | .str s => .str s
  | .int n => .str (intToStr n)
  | .json r => .jsonText r
  | _ => .str ""

/-- Response body of `handle_cache_lookup`. -/
inductive CacheLookupResp where
  | badRequest (msg : String)
  | keyResult (key ty : String) (value : LookupVal) (ttl : Int)
  | keyNotFound (key : String)
  | patternResult (pat : String) (count : Nat) (results : List (String × LookupVal))
deriving DecidableEq, Repr

/-- HTTP-style status of a cache-lookup response. -/
def CacheLookupResp.statusCode : CacheLookupResp → Nat
  | .badRequest _ => 400
  | .keyResult _ _ _ _ => 200
  | .keyNotFound _ => 404
  | .patternResult _ _ _ => 200

/-- Key-mode decode of lines 271-282: value and the Redis reads performed,
branching on the type tag.  The final else branch reports the unsupported
type inline as the value. -/
def keyModeValue (db : RedisDB) (k : String) (ty : String) :
    LookupVal × List ROp :=
  if ty = "string" then (getStringVal ((dbGet db k).getD (.str "")), [.rget k])
  else if ty = "hash" then (.hash (rHgetall db k), [.rhgetall k])
  else if ty = "set" then (.setv (rSmembers db k), [.rsmembers k])
  else if ty = "zset" then (.zset (rZrangeWithScores db k), [.rzrange k])
  else if ty = "list" then (.list (rLrange db k), [.rlrange k])
  else (.str ("Unsupported type: " ++ ty), [])

/-- Pattern-mode decode loop of lines 301-311: string keys via `GET`, hash
keys via `HGETALL`; a key of any other type falls through the if-elif
chain and is added to no result.  The per-key try suppresses read errors,
which cannot arise in this pure store model. -/
def decodePatternKeys (db : RedisDB) (ks : List String) :
    List (String × LookupVal) :=
  ks.filterMap (fun k =>
    match dbType db k with
    | "string" => some (k, getStringVal ((dbGet db k).getD (.str "")))
    | "hash" => some (k, .hash (rHgetall db k))
    | _ => none)

/-- Redis reads performed by the pattern-mode decode loop. -/
def patternOps (db : RedisDB) (ks : List String) : List ROp :=
  (ks.map (fun k =>
    match dbType db k with
    | "string" => [ROp.rtypeOf k, ROp.rget k]
    | "hash" => [ROp.rtypeOf k, ROp.rhgetall k]
    | _ => [ROp.rtypeOf k])).flatten

/-- Embedding of `handle_cache_lookup` (lines 255-321).  The Redis client
is initialized (first use pings) before the parameter validation of line
262.  Key mode: existence check, type-directed decode, TTL.  Pattern mode:
`KEYS` capped at 100, then the decode loop; the `count` field is the size
of the decoded result map. -/
def handle_cache_lookup (env : ApiEnv) (db : RedisDB) (s : ApiState)
    (p : QueryParams) : Except String (CacheLookupResp × ApiState × List ROp) := do
  let r ← get_redis_client env s
  let s1 := r.1
  let tr := r.2
  if !truthy p.key && !truthy p.pattern then
    pure (.badRequest "Either key or pattern parameter is required", s1, tr)
  else if truthy p.key then
    let k := p.key.getD ""
    if (dbGet db k).isSome then
      let ty := dbType db k
      let vo := keyModeValue db k ty
      pure (.keyResult k ty vo.1 (rTtl db k),
            s1, tr ++ [.rexists k, .rtypeOf k] ++ vo.2 ++ [.rttl k])
    else
      pure (.keyNotFound k, s1, tr ++ [.rexists k])
  else
    let pt := p.pattern.getD ""
    let ks0 := dbKeys db pt
    let ks := if ks0.length > 100 then ks0.take 100 else ks0
    let results := decodePatternKeys db ks
    pure (.patternResult pt results.length results,
          s1, tr ++ [.rkeys pt] ++ patternOps db ks)

/-- Response body of `handle_user_lookup`. -/
inductive UserLookupResp where
  | badRequest (msg : String)
  | notFound (uid : String)
  | found (uid : String) (userData sessionData : List (String × String))
deriving DecidableEq, Repr

/-- HTTP-style status of a user-lookup response. -/
def UserLookupResp.statusCode : UserLookupResp → Nat
  | .badRequest _ => 400
  | .notFound _ => 404
  | .found _ _ _ => 200

/-- Embedding of `handle_user_lookup` (lines 323-353).  The Redis client
is initialized (first use pings) before the `user_id` validation of line
328.  An empty hash at the user key reports 404; the session hash is
fetched when the user data carries a `current_session` field. -/
def handle_user_lookup (env : ApiEnv) (db : RedisDB) (s : ApiState)
    (p : QueryParams) : Except String (UserLookupResp × ApiState × List ROp) := do
  let r ← get_redis_client env s
  let s1 := r.1
  let tr := r.2
  if !truthy p.user_id then
    pure (.badRequest "user_id parameter is required", s1, tr)
  else
    let uid := p.user_id.getD ""
    let userKey := "user:" ++ uid
    let userData := rHgetall db userKey
    if userData.isEmpty then
      pure (.notFound uid, s1, tr ++ [.rhgetall userKey])
    else
      match alLookup userData "current_session" with
      | some sess =>
        pure (.found uid userData (rHgetall db ("session:" ++ sess)),
              s1, tr ++ [.rhgetall userKey, .rhgetall ("session:" ++ sess)])
      | none => pure (.found uid userData [], s1, tr ++ [.rhgetall userKey])

end ApiHandler


/-- TTL entry of a key, split out of `rTtl` for stepwise tracking. -/
def ttlLookup (db : RedisDB) (k : String) : Option Int := alLookup db.ttls k
/-- Integer reading of a counter key when `INCR` would succeed: an absent
key counts as 0. -/
def ctrOpt (db : RedisDB) (k : String) : Option Int :=
  match dbGet db k with
  | none => some 0
  | some (.int n) => some n
  | some (.str t) => pyInt t
  | _ => none
/-- Value of a counter key as the analytics reader computes it: `GET`
then `int(...)`, absent keys and non-numeric values read as 0. -/
def counterValue (db : RedisDB) (k : String) : Int :=
  match dbGet db k with
  | some (.int n) => n
  | some (.str t) => (pyInt t).getD 0
  | _ => 0
/-- Head of a character list. -/
def lHead : List Char → Option Char
  | [] => none
  | c :: _ => some c
/-- The canonical daily counter key `counters:{date}:{event_type}`. -/
def counterKey (today etype : String) : String :=
  "counters:" ++ today ++ ":" ++ etype
namespace DataProcessor

/-- Number of records of an event list whose cache write succeeds, threading
the store state exactly as the per-record loop does. -/
def cacheSuccessCount (today : String) : RedisDB → List Event → Nat
  | _, [] => 0
  | db, e :: rest =>
    match cache_user_data today db e with
    | .ok db1 => cacheSuccessCount today db1 rest + 1
    | .error _ => cacheSuccessCount today db rest

end DataProcessor
/-- Sequential cache writes of a list of events, failing at the first
record whose cache write raises (the all-success scenario of the claim). -/
def cacheEventsSeq (today : String) : RedisDB → List DataProcessor.Event →
    Except String RedisDB
  | db, [] => .ok db
  | db, e :: rest =>
    match DataProcessor.cache_user_data today db e with
    | .ok db1 => cacheEventsSeq today db1 rest
    | .error m => .error m
/-- Matched key list after the 100-key cap of line 298. -/
def capKeys (db : RedisDB) (pt : String) : List String :=
  if (dbKeys db pt).length > 100 then (dbKeys db pt).take 100 else dbKeys db pt
/-! Concrete fixtures used by witnesses and counterexamples. -/

/-- Fixed processing date used in concrete runs. -/
def exToday : String := "2026-10-12"

/-- Empty cache store. -/
def emptyDb : RedisDB := ⟨[], []⟩

/-- Minimal purchase event. -/
def exEventPurchase : DataProcessor.Event :=
  ⟨"e1", "u1", "s1", "t0", "purchase", none, none, none, none⟩

/-- Second purchase event of the same user and session. -/
def exEventPurchase2 : DataProcessor.Event :=
  ⟨"e2", "u1", "s1", "t1", "purchase", none, none, none, none⟩

/-- Search event carrying a product and a query. -/
def exEventFull : DataProcessor.Event :=
  ⟨"e3", "u2", "s2", "t2", "search", some "mobile", none, some "p9",
   some "gaming laptop"⟩

/-- Sample product record. -/
def exProduct : DataProcessor.Product :=
  ⟨"p1", "Phone X", "electronics", "99.99", "Acme", some "4.5", some "10",
   some true⟩

/-- Store whose session key holds a plain string, so the session `HSET` of
a record with session id `s1` raises `WRONGTYPE`. -/
def exDbPoisoned : RedisDB := ⟨[("session:s1", .str "x")], []⟩

/-- Bulk oracle that accepts every request with no per-document errors. -/
def exBulkOk : List DataProcessor.BulkAction → Except String DataProcessor.BulkResp :=
  fun _ => .ok ⟨false⟩

/-- Bulk response whose `errors` field is truthy. -/
def exBulkRespErrs : DataProcessor.BulkResp := ⟨true⟩

/-- Existence oracle reporting every index present. -/
def exExistsAll : String → Bool := fun _ => true

/-- Existence oracle reporting every index absent. -/
def exExistsNone : String → Bool := fun _ => false

/-- Creation oracle that succeeds. -/
def exCreateOk : String → Except String Unit := fun _ => .ok ()

/-- Creation oracle that raises the duplicate-create error of a creation
race. -/
def exCreateRace : String → Except String Unit :=
  fun _ => .error "resource_already_exists_exception"
/-! API fixtures. -/

/-- OpenSearch response with one hit. -/
def exOsResp : ApiHandler.OSSearchResp := ⟨["doc1"], 1, some 2⟩

/-- Environment whose clients construct fine and whose search always
returns `exOsResp`. -/
def exEnv : ApiHandler.ApiEnv := ⟨true, true, fun _ _ => .ok exOsResp⟩

/-- Environment whose Redis construction (ping) fails. -/
def exEnvNoPing : ApiHandler.ApiEnv := ⟨true, false, fun _ _ => .ok exOsResp⟩

/-- Request with no parameters at all. -/
def exParamsNone : ApiHandler.QueryParams := ⟨none, none, none, none, none, none⟩

/-- Search request for the query `smartphone`. -/
def exParamsSearch : ApiHandler.QueryParams :=
  ⟨some "smartphone", none, none, none, none, none⟩

/-- Search request with an unparseable size parameter. -/
def exParamsBadSize : ApiHandler.QueryParams :=
  ⟨some "smartphone", none, some "abc", none, none, none⟩

/-- Cache lookup for the catch-all pattern. -/
def exParamsPatternStar : ApiHandler.QueryParams :=
  ⟨none, none, none, none, some "*", none⟩

/-- Cache lookup for the `user:*` pattern. -/
def exParamsUserPattern : ApiHandler.QueryParams :=
  ⟨none, none, none, none, some "user:*", none⟩

/-- Store holding a single set-typed key. -/
def exSetDb : RedisDB := ⟨[("zk", .setv ["m1"])], []⟩

/-- Formatted results of `exOsResp`. -/
def exResults : Results := ⟨["doc1"], 1, some 2⟩

/-- Fingerprint key of `exParamsSearch`. -/
def exCk : String := "search_cache:user-events:smartphone:10"

/-- Store state after the first `exParamsSearch` search populated the
cache. -/
def exDb1 : RedisDB := ⟨[(exCk, .json exResults)], [(exCk, 300)]⟩

/-- Store with 101 user hashes, so that `user:*` matches more than 100
keys. -/
def manyUsersDb : RedisDB :=
  ⟨(List.range 101).map
    (fun i => ("user:" ++ natToStr i, RVal.hash [("last_event", "view")])), []⟩

/-! Helper lemmas about the store model. -/

theorem alLookup_update_self {α : Type} (l : List (String × α)) (k : String) (v : α) :
    alLookup (alUpdate l k v) k = some v := by
  induction l with
  | nil => simp [alUpdate, alLookup]
  | cons p rest ih =>
    by_cases h : p.1 = k
    · simp [alUpdate, h, alLookup]
    · simp [alUpdate, h, alLookup, ih]

theorem alLookup_update_ne {α : Type} (l : List (String × α)) (k1 k : String)
    (v : α) (h : k1 ≠ k) : alLookup (alUpdate l k1 v) k = alLookup l k := by
  induction l with
  | nil => simp [alUpdate, alLookup, h]
  | cons p rest ih =>
    by_cases hp : p.1 = k1
    · simp [alUpdate, hp, alLookup, h]
    · by_cases hk : p.1 = k
      · simp [alUpdate, hp, alLookup, hk, Ne.symm h]
      · simp [alUpdate, hp, alLookup, hk, ih]

theorem dbGet_setVal_self (db : RedisDB) (k : String) (v : RVal) :
    dbGet (dbSetVal db k v) k = some v := alLookup_update_self _ _ _

theorem dbGet_setVal_ne (db : RedisDB) (k1 : String) (v : RVal) (k : String)
    (h : k1 ≠ k) : dbGet (dbSetVal db k1 v) k = dbGet db k :=
  alLookup_update_ne _ _ _ _ h

theorem dbGet_rExpire (db : RedisDB) (k1 : String) (t : Int) (k : String) :
    dbGet (rExpire db k1 t) k = dbGet db k := by
  unfold rExpire
  split <;> rfl


theorem ttlLookup_setVal (db : RedisDB) (k1 : String) (v : RVal) (k : String) :
    ttlLookup (dbSetVal db k1 v) k = ttlLookup db k := rfl

theorem ttlLookup_rExpire_self (db : RedisDB) (k : String) (t : Int)
    (h : (dbGet db k).isSome = true) : ttlLookup (rExpire db k t) k = some t := by
  simp [rExpire, h, ttlLookup, alLookup_update_self]

theorem ttlLookup_rExpire_ne (db : RedisDB) (k1 : String) (t : Int) (k : String)
    (h : k1 ≠ k) : ttlLookup (rExpire db k1 t) k = ttlLookup db k := by
  unfold rExpire
  split
  · exact alLookup_update_ne _ _ _ _ h
  · rfl

theorem rTtl_eq_of (db : RedisDB) (k : String) (v : RVal) (t : Int)
    (h1 : dbGet db k = some v) (h2 : ttlLookup db k = some t) : rTtl db k = t := by
  unfold rTtl
  rw [h1]
  unfold ttlLookup at h2
  rw [h2]

theorem exc_ok_bind {α β : Type} (v : α) (f : α → Except String β) :
    (Except.ok v >>= f) = f v := rfl

theorem exc_error_bind {α β : Type} (m : String) (f : α → Except String β) :
    ((Except.error m : Except String α) >>= f) = Except.error m := rfl

theorem rHset_ok_shape (db : RedisDB) (k : String) (f : List (String × String))
    (d : RedisDB) (h : rHset db k f = .ok d) :
    ∃ hv, d = dbSetVal db k (.hash hv) := by
  unfold rHset at h
  split at h
  · exact ⟨f, by cases h; rfl⟩
  · next old _ => exact ⟨hashMerge old f, by cases h; rfl⟩
  · cases h

theorem rZincrby_ok_shape (db : RedisDB) (k : String) (d0 : Int) (member : String)
    (d : RedisDB) (h : rZincrby db k d0 member = .ok d) :
    ∃ zl, d = dbSetVal db k (.zset zl) := by
  unfold rZincrby at h
  split at h
  · exact ⟨[(member, d0)], by cases h; rfl⟩
  · next l _ => exact ⟨zUpdate l member d0, by cases h; rfl⟩
  · cases h

theorem rSadd_ok_shape (db : RedisDB) (k member : String) (d : RedisDB)
    (h : rSadd db k member = .ok d) : ∃ sl, d = dbSetVal db k (.setv sl) := by
  unfold rSadd at h
  split at h
  · exact ⟨[member], by cases h; rfl⟩
  · next l _ => exact ⟨if member ∈ l then l else l ++ [member], by cases h; rfl⟩
  · cases h


theorem rIncr_of_ctrOpt (db : RedisDB) (k : String) (m : Int)
    (h : ctrOpt db k = some m) :
    rIncr db k = .ok (dbSetVal db k (.int (m + 1))) := by
  unfold ctrOpt at h
  unfold rIncr
  cases hg : dbGet db k with
  | none =>
    rw [hg] at h
    simp at h
    simp [hg, ← h]
  | some v =>
    rw [hg] at h
    cases v with
    | int n => simp at h; simp [hg, h]
    | str t => simp at h; simp [hg, h]
    | json r => simp at h
    | hash l => simp at h
    | setv l => simp at h
    | zset l => simp at h
    | list l => simp at h


theorem counterValue_of_ctrOpt (db : RedisDB) (k : String) (m : Int)
    (h : ctrOpt db k = some m) : counterValue db k = m := by
  unfold ctrOpt at h
  unfold counterValue
  cases hg : dbGet db k with
  | none => rw [hg] at h; simp at h; simp [hg, ← h]
  | some v =>
    rw [hg] at h
    cases v with
    | int n => simp at h; simp [hg, h]
    | str t => simp at h; simp [hg, h]
    | json r => simp at h
    | hash l => simp at h
    | setv l => simp at h
    | zset l => simp at h
    | list l => simp at h

/-! Disjointness of the cache key classes: keys built from different
literal prefixes never collide, which the per-key TTL and counter facts
rely on. -/


theorem lHead_append (l1 l2 : List Char) (c : Char) (h : lHead l1 = some c) :
    lHead (l1 ++ l2) = some c := by
  cases l1 with
  | nil => simp [lHead] at h
  | cons a rest => simpa [lHead] using h

theorem lHead_strAppend (a x : String) (c : Char) (h : lHead a.data = some c) :
    lHead ((a ++ x).data) = some c := by
  rw [String.data_append]
  exact lHead_append _ _ _ h

theorem strNe_of_heads (a b : String) (ca cb : Char)
    (ha : lHead a.data = some ca) (hb : lHead b.data = some cb)
    (hne : ca ≠ cb) : a ≠ b := by
  intro he
  rw [he, hb] at ha
  exact hne (Option.some.inj ha).symm

theorem strNe_of_take (n : Nat) (a b : String)
    (h : a.data.take n ≠ b.data.take n) : a ≠ b := by
  intro he
  exact h (by rw [he])


theorem lHead_counterKey (t e : String) :
    lHead ((counterKey t e).data) = some 'c' := by
  unfold counterKey
  exact lHead_strAppend _ _ _ (lHead_strAppend _ _ _ (lHead_strAppend _ _ _ (by decide)))

theorem lHead_sessionKey (x : String) :
    lHead (("session:" ++ x).data) = some 's' :=
  lHead_strAppend _ _ _ (by decide)

theorem lHead_userKey (x : String) :
    lHead (("user:" ++ x).data) = some 'u' :=
  lHead_strAppend _ _ _ (by decide)

theorem lHead_searchqKey (x : String) :
    lHead (("search_queries:" ++ x).data) = some 's' :=
  lHead_strAppend _ _ _ (by decide)

theorem lHead_productKey (x : String) :
    lHead (("product:" ++ x).data) = some 'p' :=
  lHead_strAppend _ _ _ (by decide)

theorem lHead_categoryKey (x : String) :
    lHead (("category_products:" ++ x).data) = some 'c' :=
  lHead_strAppend _ _ _ (by decide)

theorem lHead_productSearchKey (x : String) :
    lHead (("product_search:" ++ x).data) = some 'p' :=
  lHead_strAppend _ _ _ (by decide)

theorem session_ne_counter (x t e : String) : "session:" ++ x ≠ counterKey t e :=
  strNe_of_heads _ _ _ _ (lHead_sessionKey x) (lHead_counterKey t e) (by decide)

theorem user_ne_counter (x t e : String) : "user:" ++ x ≠ counterKey t e :=
  strNe_of_heads _ _ _ _ (lHead_userKey x) (lHead_counterKey t e) (by decide)

theorem popular_ne_counter (t e : String) : "popular_products" ≠ counterKey t e :=
  strNe_of_heads _ _ 'p' _ (by decide) (lHead_counterKey t e) (by decide)

theorem searchq_ne_counter (x t e : String) :
    "search_queries:" ++ x ≠ counterKey t e :=
  strNe_of_heads _ _ _ _ (lHead_searchqKey x) (lHead_counterKey t e) (by decide)

theorem user_ne_session (x y : String) : "user:" ++ x ≠ "session:" ++ y :=
  strNe_of_heads _ _ _ _ (lHead_userKey x) (lHead_sessionKey y) (by decide)

theorem counter_ne_session (t e y : String) : counterKey t e ≠ "session:" ++ y :=
  (session_ne_counter y t e).symm

theorem popular_ne_session (y : String) : "popular_products" ≠ "session:" ++ y :=
  strNe_of_heads _ _ 'p' _ (by decide) (lHead_sessionKey y) (by decide)

theorem searchq_ne_session (x y : String) :
    "search_queries:" ++ x ≠ "session:" ++ y := by
  apply strNe_of_take 8
  rw [String.data_append, String.data_append,
    List.take_append_of_le_length (by decide),
    List.take_append_of_le_length (by decide)]
  decide

theorem counter_ne_user (t e y : String) : counterKey t e ≠ "user:" ++ y :=
  (user_ne_counter y t e).symm

theorem popular_ne_user (y : String) : "popular_products" ≠ "user:" ++ y :=
  strNe_of_heads _ _ 'p' _ (by decide) (lHead_userKey y) (by decide)

theorem searchq_ne_user (x y : String) : "search_queries:" ++ x ≠ "user:" ++ y :=
  strNe_of_heads _ _ _ _ (lHead_searchqKey x) (lHead_userKey y) (by decide)

theorem searchq_ne_popular (x : String) :
    "search_queries:" ++ x ≠ "popular_products" :=
  strNe_of_heads _ _ _ 'p' (lHead_searchqKey x) (by decide) (by decide)

theorem category_ne_product (c p : String) :
    "category_products:" ++ c ≠ "product:" ++ p :=
  strNe_of_heads _ _ _ _ (lHead_categoryKey c) (lHead_productKey p) (by decide)

theorem productSearch_ne_product (n p : String) :
    "product_search:" ++ n ≠ "product:" ++ p := by
  apply strNe_of_take 8
  rw [String.data_append, String.data_append,
    List.take_append_of_le_length (by decide),
    List.take_append_of_le_length (by decide)]
  decide

theorem productSearch_ne_category (n c : String) :
    "product_search:" ++ n ≠ "category_products:" ++ c :=
  strNe_of_heads _ _ _ _ (lHead_productSearchKey n) (lHead_categoryKey c) (by decide)

theorem rIncr_ok_shape (db : RedisDB) (k : String) (d : RedisDB)
    (h : rIncr db k = .ok d) : ∃ n, d = dbSetVal db k (.int n) := by
  unfold rIncr at h
  split at h
  · exact ⟨1, by cases h; rfl⟩
  · next n _ => exact ⟨n + 1, by cases h; rfl⟩
  · split at h
    · next n _ => exact ⟨n + 1, by cases h; rfl⟩
    · cases h
  · cases h

theorem exc_pure_bind {α β : Type} (v : α) (f : α → Except String β) :
    ((pure v : Except String α) >>= f) = f v := rfl

theorem alLookup_ttls (db : RedisDB) (k : String) :
    alLookup db.ttls k = ttlLookup db k := rfl

theorem ctrOpt_congr (db1 db2 : RedisDB) (k : String)
    (h : dbGet db1 k = dbGet db2 k) : ctrOpt db1 k = ctrOpt db2 k := by
  unfold ctrOpt
  rw [h]

theorem rIncr_ok_ctr (db : RedisDB) (k : String) (d : RedisDB)
    (h : rIncr db k = .ok d) :
    ∃ m, ctrOpt db k = some m ∧ d = dbSetVal db k (.int (m + 1)) := by
  unfold rIncr at h
  cases hg : dbGet db k with
  | none =>
    rw [hg] at h
    exact ⟨0, by unfold ctrOpt; rw [hg], by cases h; norm_num⟩
  | some v =>
    rw [hg] at h
    cases v with
    | int n => exact ⟨n, by unfold ctrOpt; rw [hg], by cases h; rfl⟩
    | str t =>
      cases hpy : pyInt t with
      | none => simp only [hpy] at h; cases h
      | some n =>
        simp only [hpy] at h
        exact ⟨n, by unfold ctrOpt; rw [hg]; exact hpy, by cases h; rfl⟩
    | json r => cases h
    | hash l => cases h
    | setv l => cases h
    | zset l => cases h
    | list l => cases h

theorem session_ne_counterA (x t e : String) :
    "session:" ++ x ≠ "counters:" ++ t ++ ":" ++ e := session_ne_counter x t e

theorem user_ne_counterA (x t e : String) :
    "user:" ++ x ≠ "counters:" ++ t ++ ":" ++ e := user_ne_counter x t e

theorem popular_ne_counterA (t e : String) :
    "popular_products" ≠ "counters:" ++ t ++ ":" ++ e := popular_ne_counter t e

theorem searchq_ne_counterA (x t e : String) :
    "search_queries:" ++ x ≠ "counters:" ++ t ++ ":" ++ e := searchq_ne_counter x t e

theorem counter_ne_sessionA (t e y : String) :
    "counters:" ++ t ++ ":" ++ e ≠ "session:" ++ y := counter_ne_session t e y

theorem counter_ne_userA (t e y : String) :
    "counters:" ++ t ++ ":" ++ e ≠ "user:" ++ y := counter_ne_user t e y

theorem cache_user_data_effects (today : String) (db d : RedisDB)
    (e : DataProcessor.Event)
    (h : DataProcessor.cache_user_data today db e = .ok d) :
    rTtl d ("session:" ++ e.session_id) = 3600 ∧
    rTtl d ("user:" ++ e.user_id) = 86400 ∧
    rTtl d (counterKey today e.event_type) = 604800 ∧
    (e.product_id.isSome = true → rTtl d "popular_products" = 86400) ∧
    (e.event_type = "search" → e.search_query.isSome = true →
        rTtl d ("search_queries:" ++ today) = 604800) ∧
    (∃ m0, ctrOpt db (counterKey today e.event_type) = some m0 ∧
        dbGet d (counterKey today e.event_type) = some (.int (m0 + 1))) := by
  unfold counterKey
  unfold DataProcessor.cache_user_data at h
  cases hA : rHset db ("session:" ++ e.session_id)
      [("user_id", e.user_id), ("last_activity", e.timestamp),
       ("last_event", e.event_type), ("device_type", e.device_type.getD "unknown"),
       ("location", e.location.getD "\x7b\x7d")] with
  | error m1 => rw [hA, exc_error_bind] at h; cases h
  | ok dbA =>
  simp only [hA, exc_ok_bind] at h
  obtain ⟨hv1, hsA⟩ := rHset_ok_shape _ _ _ _ hA
  subst hsA
  set dbS1 := rExpire (dbSetVal db ("session:" ++ e.session_id) (.hash hv1))
      ("session:" ++ e.session_id) 3600 with hdbS1
  cases hB : rHset dbS1 ("user:" ++ e.user_id)
      [("last_activity", e.timestamp), ("last_event", e.event_type),
       ("current_session", e.session_id)] with
  | error m2 => rw [hB, exc_error_bind] at h; cases h
  | ok dbB =>
  simp only [hB, exc_ok_bind] at h
  obtain ⟨hv2, hsB⟩ := rHset_ok_shape _ _ _ _ hB
  subst hsB
  set dbS2 := rExpire (dbSetVal dbS1 ("user:" ++ e.user_id) (.hash hv2))
      ("user:" ++ e.user_id) 86400 with hdbS2
  cases hC : rIncr dbS2 ("counters:" ++ today ++ ":" ++ e.event_type) with
  | error m3 => rw [hC, exc_error_bind] at h; cases h
  | ok dbC =>
  simp only [hC, exc_ok_bind] at h
  obtain ⟨m0, hm0, hsC⟩ := rIncr_ok_ctr _ _ _ hC
  subst hsC
  have hpre : dbGet dbS2 ("counters:" ++ today ++ ":" ++ e.event_type)
      = dbGet db ("counters:" ++ today ++ ":" ++ e.event_type) := by
    simp [hdbS2, hdbS1, dbGet_rExpire, dbGet_setVal_ne,
      user_ne_counterA, session_ne_counterA]
  have hctrdb : ctrOpt db ("counters:" ++ today ++ ":" ++ e.event_type) = some m0 :=
    (ctrOpt_congr _ _ _ hpre).symm.trans hm0
  set dbS3 := rExpire
      (dbSetVal dbS2 ("counters:" ++ today ++ ":" ++ e.event_type) (.int (m0 + 1)))
      ("counters:" ++ today ++ ":" ++ e.event_type) (86400 * 7) with hdbS3
  cases hp : e.product_id with
  | none =>
    simp only [hp, exc_pure_bind] at h
    by_cases hs : e.event_type = "search"
    · rw [if_pos hs] at h
      cases hq : e.search_query with
      | none =>
        simp only [hq] at h
        obtain rfl : dbS3 = d := Except.ok.inj h
        refine ⟨?_, ?_, ?_, ?_, ?_, ⟨m0, hctrdb, ?_⟩⟩ <;>
          simp [hp, hs, hq, hdbS3, hdbS2, hdbS1, rTtl, alLookup_ttls, dbGet_rExpire, dbGet_setVal_self,
        dbGet_setVal_ne, ttlLookup_setVal, ttlLookup_rExpire_self, ttlLookup_rExpire_ne,
        session_ne_counterA, user_ne_counterA, popular_ne_counterA, searchq_ne_counterA,
        user_ne_session, counter_ne_sessionA, popular_ne_session, searchq_ne_session,
        counter_ne_userA, popular_ne_user, searchq_ne_user, searchq_ne_popular,
        (by norm_num : (86400 * 7 : Int) = 604800)]
      | some q =>
        simp only [hq] at h
        cases hE : rZincrby dbS3 ("search_queries:" ++ today) 1 q with
        | error mq => rw [hE, exc_error_bind] at h; cases h
        | ok dbE =>
        simp only [hE, exc_ok_bind, exc_pure_bind] at h
        obtain ⟨zl2, hsE⟩ := rZincrby_ok_shape _ _ _ _ _ hE
        subst hsE
        set dbS5 := rExpire
            (dbSetVal dbS3 ("search_queries:" ++ today) (.zset zl2))
            ("search_queries:" ++ today) (86400 * 7) with hdbS5
        obtain rfl : dbS5 = d := Except.ok.inj h
        refine ⟨?_, ?_, ?_, ?_, ?_, ⟨m0, hctrdb, ?_⟩⟩ <;>
          simp [hp, hs, hq, hdbS5, hdbS3, hdbS2, hdbS1, rTtl, alLookup_ttls, dbGet_rExpire, dbGet_setVal_self,
        dbGet_setVal_ne, ttlLookup_setVal, ttlLookup_rExpire_self, ttlLookup_rExpire_ne,
        session_ne_counterA, user_ne_counterA, popular_ne_counterA, searchq_ne_counterA,
        user_ne_session, counter_ne_sessionA, popular_ne_session, searchq_ne_session,
        counter_ne_userA, popular_ne_user, searchq_ne_user, searchq_ne_popular,
        (by norm_num : (86400 * 7 : Int) = 604800)]
    · rw [if_neg hs] at h
      obtain rfl : dbS3 = d := Except.ok.inj h
      refine ⟨?_, ?_, ?_, ?_, ?_, ⟨m0, hctrdb, ?_⟩⟩ <;>
        simp [hp, hs, hdbS3, hdbS2, hdbS1, rTtl, alLookup_ttls, dbGet_rExpire, dbGet_setVal_self,
        dbGet_setVal_ne, ttlLookup_setVal, ttlLookup_rExpire_self, ttlLookup_rExpire_ne,
        session_ne_counterA, user_ne_counterA, popular_ne_counterA, searchq_ne_counterA,
        user_ne_session, counter_ne_sessionA, popular_ne_session, searchq_ne_session,
        counter_ne_userA, popular_ne_user, searchq_ne_user, searchq_ne_popular,
        (by norm_num : (86400 * 7 : Int) = 604800)]
  | some pid =>
    simp only [hp] at h
    cases hD : rZincrby dbS3 "popular_products" 1 pid with
    | error mp => rw [hD, exc_error_bind] at h; cases h
    | ok dbD =>
    simp only [hD, exc_ok_bind, exc_pure_bind] at h
    obtain ⟨zlp, hsD⟩ := rZincrby_ok_shape _ _ _ _ _ hD
    subst hsD
    set dbS4 := rExpire (dbSetVal dbS3 "popular_products" (.zset zlp))
        "popular_products" 86400 with hdbS4
    by_cases hs : e.event_type = "search"
    · rw [if_pos hs] at h
      cases hq : e.search_query with
      | none =>
        simp only [hq] at h
        obtain rfl : dbS4 = d := Except.ok.inj h
        refine ⟨?_, ?_, ?_, ?_, ?_, ⟨m0, hctrdb, ?_⟩⟩ <;>
          simp [hp, hs, hq, hdbS4, hdbS3, hdbS2, hdbS1, rTtl, alLookup_ttls, dbGet_rExpire, dbGet_setVal_self,
        dbGet_setVal_ne, ttlLookup_setVal, ttlLookup_rExpire_self, ttlLookup_rExpire_ne,
        session_ne_counterA, user_ne_counterA, popular_ne_counterA, searchq_ne_counterA,
        user_ne_session, counter_ne_sessionA, popular_ne_session, searchq_ne_session,
        counter_ne_userA, popular_ne_user, searchq_ne_user, searchq_ne_popular,
        (by norm_num : (86400 * 7 : Int) = 604800)]
      | some q =>
        simp only [hq] at h
        cases hE : rZincrby dbS4 ("search_queries:" ++ today) 1 q with
        | error mq => rw [hE, exc_error_bind] at h; cases h
        | ok dbE =>
        simp only [hE, exc_ok_bind, exc_pure_bind] at h
        obtain ⟨zl2, hsE⟩ := rZincrby_ok_shape _ _ _ _ _ hE
        subst hsE
        set dbS5 := rExpire
            (dbSetVal dbS4 ("search_queries:" ++ today) (.zset zl2))
            ("search_queries:" ++ today) (86400 * 7) with hdbS5
        obtain rfl : dbS5 = d := Except.ok.inj h
        refine ⟨?_, ?_, ?_, ?_, ?_, ⟨m0, hctrdb, ?_⟩⟩ <;>
          simp [hp, hs, hq, hdbS5, hdbS4, hdbS3, hdbS2, hdbS1, rTtl, alLookup_ttls, dbGet_rExpire, dbGet_setVal_self,
        dbGet_setVal_ne, ttlLookup_setVal, ttlLookup_rExpire_self, ttlLookup_rExpire_ne,
        session_ne_counterA, user_ne_counterA, popular_ne_counterA, searchq_ne_counterA,
        user_ne_session, counter_ne_sessionA, popular_ne_session, searchq_ne_session,
        counter_ne_userA, popular_ne_user, searchq_ne_user, searchq_ne_popular,
        (by norm_num : (86400 * 7 : Int) = 604800)]
    · rw [if_neg hs] at h
      obtain rfl : dbS4 = d := Except.ok.inj h
      refine ⟨?_, ?_, ?_, ?_, ?_, ⟨m0, hctrdb, ?_⟩⟩ <;>
        simp [hp, hs, hdbS4, hdbS3, hdbS2, hdbS1, rTtl, alLookup_ttls, dbGet_rExpire, dbGet_setVal_self,
        dbGet_setVal_ne, ttlLookup_setVal, ttlLookup_rExpire_self, ttlLookup_rExpire_ne,
        session_ne_counterA, user_ne_counterA, popular_ne_counterA, searchq_ne_counterA,
        user_ne_session, counter_ne_sessionA, popular_ne_session, searchq_ne_session,
        counter_ne_userA, popular_ne_user, searchq_ne_user, searchq_ne_popular,
        (by norm_num : (86400 * 7 : Int) = 604800)]

theorem dbGet_rSet_self (db : RedisDB) (k : String) (v : RVal) (ex : Int) :
    dbGet (rSet db k v ex) k = some v := alLookup_update_self _ _ _

theorem dbGet_rSet_ne (db : RedisDB) (k1 : String) (v : RVal) (ex : Int)
    (k : String) (h : k1 ≠ k) : dbGet (rSet db k1 v ex) k = dbGet db k :=
  alLookup_update_ne _ _ _ _ h

theorem ttlLookup_rSet_self (db : RedisDB) (k : String) (v : RVal) (ex : Int) :
    ttlLookup (rSet db k v ex) k = some ex := alLookup_update_self _ _ _

theorem ttlLookup_rSet_ne (db : RedisDB) (k1 : String) (v : RVal) (ex : Int)
    (k : String) (h : k1 ≠ k) : ttlLookup (rSet db k1 v ex) k = ttlLookup db k :=
  alLookup_update_ne _ _ _ _ h

theorem cache_product_data_effects (db d : RedisDB) (p : DataProcessor.Product)
    (h : DataProcessor.cache_product_data db p = .ok d) :
    rTtl d ("product:" ++ p.id) = 3600 ∧
    rTtl d ("category_products:" ++ p.category) = 86400 ∧
    rTtl d ("product_search:" ++ strLower p.name) = 3600 := by
  unfold DataProcessor.cache_product_data at h
  cases hA : rHset db ("product:" ++ p.id)
      [("name", p.name), ("category", p.category), ("price", p.price),
       ("brand", p.brand), ("rating", p.rating.getD "0"),
       ("stock_quantity", p.stock_quantity.getD "0"),
       ("is_active", pyBoolStr (p.is_active.getD true))] with
  | error m1 => rw [hA, exc_error_bind] at h; cases h
  | ok dbA =>
  simp only [hA, exc_ok_bind] at h
  obtain ⟨hv1, hsA⟩ := rHset_ok_shape _ _ _ _ hA
  subst hsA
  set dbP1 := rExpire (dbSetVal db ("product:" ++ p.id) (.hash hv1))
      ("product:" ++ p.id) 3600 with hdbP1
  cases hB : rSadd dbP1 ("category_products:" ++ p.category) p.id with
  | error m2 => rw [hB, exc_error_bind] at h; cases h
  | ok dbB =>
  simp only [hB, exc_ok_bind] at h
  obtain ⟨sl, hsB⟩ := rSadd_ok_shape _ _ _ _ hB
  subst hsB
  set dbP2 := rExpire (dbSetVal dbP1 ("category_products:" ++ p.category) (.setv sl))
      ("category_products:" ++ p.category) 86400 with hdbP2
  obtain rfl : rSet dbP2 ("product_search:" ++ strLower p.name) (.str p.id) 3600 = d :=
    Except.ok.inj h
  refine ⟨?_, ?_, ?_⟩ <;>
    simp [hdbP2, hdbP1, rTtl, alLookup_ttls, dbGet_rExpire, dbGet_setVal_self,
      dbGet_setVal_ne, dbGet_rSet_self, dbGet_rSet_ne, ttlLookup_setVal,
      ttlLookup_rExpire_self, ttlLookup_rExpire_ne, ttlLookup_rSet_self,
      ttlLookup_rSet_ne, category_ne_product, productSearch_ne_product,
      productSearch_ne_category]

/-! Lemmas about the batch-processing loops. -/


theorem processEventsLoop_count (today : String) (db : RedisDB)
    (events : List DataProcessor.Event) :
    (DataProcessor.processEventsLoop today db events).1
      = DataProcessor.cacheSuccessCount today db events ∧
    (DataProcessor.processEventsLoop today db events).2.2.length
      = 2 * DataProcessor.cacheSuccessCount today db events := by
  induction events generalizing db with
  | nil => simp [DataProcessor.processEventsLoop, DataProcessor.cacheSuccessCount]
  | cons e rest ih =>
    unfold DataProcessor.processEventsLoop DataProcessor.cacheSuccessCount
    cases hc : DataProcessor.cache_user_data today db e with
    | ok db1 =>
      have h1 := (ih db1).1
      have h2 := (ih db1).2
      simp [DataProcessor.eventBulkActions, h1, h2]
      omega
    | error m => exact ih db

theorem process_user_events_ok (bulk : List DataProcessor.BulkAction → Except String DataProcessor.BulkResp)
    (h : ∀ a, ∃ r, bulk a = .ok r) (today : String) (db : RedisDB)
    (events : List DataProcessor.Event) :
    DataProcessor.process_user_events bulk today db events
      = .ok ((DataProcessor.processEventsLoop today db events).1,
             (DataProcessor.processEventsLoop today db events).2.1) := by
  simp only [DataProcessor.process_user_events]
  obtain ⟨r, hr⟩ := h (DataProcessor.processEventsLoop today db events).2.2
  split
  · rfl
  · rw [hr]

theorem process_products_ok (bulk : List DataProcessor.BulkAction → Except String DataProcessor.BulkResp)
    (h : ∀ a, ∃ r, bulk a = .ok r) (db : RedisDB)
    (products : List DataProcessor.Product) :
    DataProcessor.process_products bulk db products
      = .ok ((DataProcessor.processProductsLoop db products).1,
             (DataProcessor.processProductsLoop db products).2.1) := by
  simp only [DataProcessor.process_products]
  obtain ⟨r, hr⟩ := h (DataProcessor.processProductsLoop db products).2.2
  split
  · rfl
  · rw [hr]

theorem process_user_events_bulk_err (m today : String) (db : RedisDB)
    (events : List DataProcessor.Event)
    (hne : (DataProcessor.processEventsLoop today db events).2.2 ≠ []) :
    DataProcessor.process_user_events (fun _ => .error m) today db events
      = .error m := by
  simp only [DataProcessor.process_user_events]
  split
  · next hemp => simp only [List.isEmpty_iff] at hemp; exact absurd hemp hne
  · rfl

theorem process_data_batch_ok
    (bulkE bulkP : List DataProcessor.BulkAction → Except String DataProcessor.BulkResp)
    (today : String) (db : RedisDB) (d : DataProcessor.BatchData)
    (hE : ∀ a, ∃ r, bulkE a = .ok r) (hP : ∀ a, ∃ r, bulkP a = .ok r) :
    ∃ n db1, DataProcessor.process_data_batch bulkE bulkP today db d
      = .ok (n, db1) := by
  obtain ⟨ev, pr, se⟩ := d
  cases ev <;> cases pr <;> cases se <;>
    · simp only [DataProcessor.process_data_batch, exc_pure_bind, exc_ok_bind,
        process_user_events_ok bulkE hE, process_products_ok bulkP hP]
      exact ⟨_, _, rfl⟩

theorem process_data_batch_single
    (bulkE bulkP : List DataProcessor.BulkAction → Except String DataProcessor.BulkResp)
    (hE : ∀ a, ∃ r, bulkE a = .ok r) (today : String) (db : RedisDB)
    (e : DataProcessor.Event) :
    ∃ db1, DataProcessor.process_data_batch bulkE bulkP today db
      ⟨none, none, some e⟩ = .ok (1, db1) := by
  have hrun := process_user_events_ok bulkE hE today db [e]
  simp only [DataProcessor.process_data_batch, exc_pure_bind, exc_ok_bind, hrun]
  exact ⟨(DataProcessor.processEventsLoop today db [e]).2.1, rfl⟩

/-! Lemmas about the API handlers. -/

theorem get_os_ok_inv (env : ApiHandler.ApiEnv) (s sA : ApiHandler.ApiState)
    (h : ApiHandler.get_opensearch_client env s = .ok sA) : sA.osInited = true := by
  unfold ApiHandler.get_opensearch_client at h
  split at h
  · next hi => cases h; exact hi
  · split at h
    · cases h; rfl
    · cases h

theorem get_redis_ok_inv (env : ApiHandler.ApiEnv) (s : ApiHandler.ApiState)
    (rp : ApiHandler.ApiState × List ApiHandler.ROp)
    (h : ApiHandler.get_redis_client env s = .ok rp) :
    rp.1.redisInited = true ∧ rp.1.osInited = s.osInited := by
  unfold ApiHandler.get_redis_client at h
  split at h
  · next hi => cases h; exact ⟨hi, rfl⟩
  · split at h
    · cases h; exact ⟨rfl, rfl⟩
    · cases h

theorem get_os_idem (env : ApiHandler.ApiEnv) (s : ApiHandler.ApiState)
    (h : s.osInited = true) : ApiHandler.get_opensearch_client env s = .ok s := by
  unfold ApiHandler.get_opensearch_client
  simp [h]

theorem get_redis_idem (env : ApiHandler.ApiEnv) (s : ApiHandler.ApiState)
    (h : s.redisInited = true) :
    ApiHandler.get_redis_client env s = .ok (s, []) := by
  unfold ApiHandler.get_redis_client
  simp [h]

theorem searchAfterInit_spec
    (os : String → ApiHandler.SearchBody → Except String ApiHandler.OSSearchResp)
    (db db1 : RedisDB) (p : ApiHandler.QueryParams) (q i : String)
    (r : Results) (ops : List ApiHandler.ROp)
    (h : ApiHandler.searchAfterInit os db p = .ok (.results q i false r, db1, ops)) :
    ∃ ck, ApiHandler.requestCacheKey p = .ok ck ∧
      dbGet db1 ck = some (.json r) ∧ rTtl db1 ck = 300 ∧
      ApiHandler.searchAfterInit os db1 p
        = .ok (.results q i true r, db1, [.rget ck]) := by
  unfold ApiHandler.searchAfterInit at h
  cases hps : ApiHandler.parseSize p.size with
  | error m => rw [hps, exc_error_bind] at h; cases h
  | ok size0 =>
  simp only [hps, exc_ok_bind] at h
  set ck := ApiHandler.searchCacheKey (p.index.getD "user-events") (p.q.getD "*")
      (min size0 100) with hck
  split at h
  · next r0 hget =>
    exact absurd (Except.ok.inj h) (by simp)
  · next hmiss =>
    cases hos2 : os (p.index.getD "user-events")
        (if p.q.getD "*" = "*" then ApiHandler.SearchBody.matchAll (min size0 100)
         else ApiHandler.SearchBody.multiMatch (p.q.getD "*") (min size0 100)) with
    | error m =>
      rw [hos2] at h
      exact absurd (Except.ok.inj h) (by simp)
    | ok resp =>
      rw [hos2] at h
      have hinj := Except.ok.inj h
      simp only [Prod.mk.injEq, ApiHandler.SearchResp.results.injEq] at hinj
      obtain ⟨⟨hq, hi, _, hr⟩, hdb1, hops⟩ := hinj
      subst hdb1
      subst hr
      refine ⟨ck, ?_, ?_, ?_, ?_⟩
      · simp [ApiHandler.requestCacheKey, hps, exc_ok_bind, hck]
      · exact dbGet_rSet_self _ _ _ _
      · simp [rTtl, alLookup_ttls, dbGet_rSet_self, ttlLookup_rSet_self]
      · simp only [ApiHandler.searchAfterInit, hps, exc_ok_bind]
        rw [← hck]
        simp only [dbGet_rSet_self, hq, hi]
        rfl


/-! C1: per-record failure handling and the processed count. -/

/-- Claim C1, counterexample: with a poisoned session key the cache write
of a flattened single event raises and succeeds for zero records, yet
`process_data_batch` still reports a processed count of 1 — the count on
the flattened path does not reflect the cache-write failure. -/
theorem C1_counterexample :
    DataProcessor.cache_user_data exToday exDbPoisoned exEventPurchase
      = .error "WRONGTYPE hset session:s1" ∧
    DataProcessor.process_data_batch exBulkOk exBulkOk exToday exDbPoisoned
      ⟨none, none, some exEventPurchase⟩ = .ok (1, exDbPoisoned) :=
  ⟨rfl, rfl⟩

/-- Claim C1 (amended): on the `events` list path a per-record cache-write
exception is caught and only that record is skipped — the processed count
equals the number of records whose cache write succeeded and the bulk
request carries exactly two lines per succeeding record; on the flattened
single-event path, however, the count contribution is always 1 regardless
of the record's cache-write outcome. -/
theorem C1_per_record_counts
    (bulkE bulkP : List DataProcessor.BulkAction → Except String DataProcessor.BulkResp)
    (today : String) (db : RedisDB) (events : List DataProcessor.Event)
    (hE : ∀ a, ∃ r, bulkE a = .ok r) :
    (∃ db1, DataProcessor.process_user_events bulkE today db events
        = .ok (DataProcessor.cacheSuccessCount today db events, db1)) ∧
    ((DataProcessor.processEventsLoop today db events).2.2.length
        = 2 * DataProcessor.cacheSuccessCount today db events) ∧
    (∀ e, ∃ db1, DataProcessor.process_data_batch bulkE bulkP today db
        ⟨none, none, some e⟩ = .ok (1, db1)) := by
  refine ⟨⟨(DataProcessor.processEventsLoop today db events).2.1, ?_⟩,
    (processEventsLoop_count today db events).2,
    fun e => process_data_batch_single bulkE bulkP hE today db e⟩
  rw [process_user_events_ok bulkE hE today db events,
    (processEventsLoop_count today db events).1]

/-- Witness for C1 at a concrete store and batch: one record whose cache
write fails. -/
theorem C1_per_record_counts_witness :
    (∃ db1, DataProcessor.process_user_events exBulkOk exToday exDbPoisoned
        [exEventPurchase]
        = .ok (DataProcessor.cacheSuccessCount exToday exDbPoisoned
            [exEventPurchase], db1)) ∧
    ((DataProcessor.processEventsLoop exToday exDbPoisoned [exEventPurchase]).2.2.length
        = 2 * DataProcessor.cacheSuccessCount exToday exDbPoisoned [exEventPurchase]) ∧
    (∀ e, ∃ db1, DataProcessor.process_data_batch exBulkOk exBulkOk exToday
        exDbPoisoned ⟨none, none, some e⟩ = .ok (1, db1)) :=
  C1_per_record_counts exBulkOk exBulkOk exToday exDbPoisoned [exEventPurchase]
    (fun _ => ⟨⟨false⟩, rfl⟩)

/-! C3: bulk partial failure is logged, not fatal. -/

/-- Claim C3: a bulk response whose `errors` field is set (or any response
at all) never changes the outcome — the batch completes with the full
processed count, and an invocation whose bulk calls all return (errors or
not) answers 200; only an exception raised by the bulk call itself
propagates, and only when actions were queued. -/
theorem C3_bulk_errors_not_fatal (today : String) (db : RedisDB)
    (events : List DataProcessor.Event) (products : List DataProcessor.Product)
    (resp : DataProcessor.BulkResp) :
    (DataProcessor.process_user_events (fun _ => .ok resp) today db events
       = .ok ((DataProcessor.processEventsLoop today db events).1,
              (DataProcessor.processEventsLoop today db events).2.1)) ∧
    (DataProcessor.process_products (fun _ => .ok resp) db products
       = .ok ((DataProcessor.processProductsLoop db products).1,
              (DataProcessor.processProductsLoop db products).2.1)) ∧
    (∀ m, (DataProcessor.processEventsLoop today db events).2.2 ≠ [] →
        DataProcessor.process_user_events (fun _ => .error m) today db events
          = .error m) ∧
    (∀ existsQ createQ d l,
        DataProcessor.create_opensearch_indices existsQ createQ = .ok l →
        (DataProcessor.lambda_handler existsQ createQ (fun _ => .ok resp)
            (fun _ => .ok resp) today db (.direct d)).statusCode = 200) := by
  refine ⟨process_user_events_ok _ (fun _ => ⟨resp, rfl⟩) today db events,
    process_products_ok _ (fun _ => ⟨resp, rfl⟩) db products,
    fun m hne => process_user_events_bulk_err m today db events hne,
    fun existsQ createQ d l hcr => ?_⟩
  unfold DataProcessor.lambda_handler
  rw [hcr]
  obtain ⟨n, db1, hok⟩ := process_data_batch_ok _ _ today db d
    (fun _ => ⟨resp, rfl⟩) (fun _ => ⟨resp, rfl⟩)
  simp [hok, DataProcessor.DPResponse.statusCode]

/-- Witness for C3 with a truthy `errors` flag in every bulk response. -/
theorem C3_bulk_errors_not_fatal_witness :
    (DataProcessor.process_user_events (fun _ => .ok exBulkRespErrs) exToday
        emptyDb [exEventPurchase]
       = .ok ((DataProcessor.processEventsLoop exToday emptyDb [exEventPurchase]).1,
              (DataProcessor.processEventsLoop exToday emptyDb [exEventPurchase]).2.1)) ∧
    (DataProcessor.process_products (fun _ => .ok exBulkRespErrs) emptyDb [exProduct]
       = .ok ((DataProcessor.processProductsLoop emptyDb [exProduct]).1,
              (DataProcessor.processProductsLoop emptyDb [exProduct]).2.1)) ∧
    (∀ m, (DataProcessor.processEventsLoop exToday emptyDb [exEventPurchase]).2.2 ≠ [] →
        DataProcessor.process_user_events (fun _ => .error m) exToday emptyDb
          [exEventPurchase] = .error m) ∧
    (∀ existsQ createQ d l,
        DataProcessor.create_opensearch_indices existsQ createQ = .ok l →
        (DataProcessor.lambda_handler existsQ createQ (fun _ => .ok exBulkRespErrs)
            (fun _ => .ok exBulkRespErrs) exToday emptyDb (.direct d)).statusCode
          = 200) :=
  C3_bulk_errors_not_fatal exToday emptyDb [exEventPurchase] [exProduct]
    exBulkRespErrs

/-! C8: index creation is create-if-absent, but a create error is fatal. -/

/-- Claim C8, counterexample: when the existence check reports the index
absent and the create call then raises the duplicate-create error of a
creation race, `create_opensearch_indices` re-raises instead of treating
it as benign — the invocation fails. -/
theorem C8_counterexample :
    DataProcessor.create_opensearch_indices exExistsNone exCreateRace
      = .error "resource_already_exists_exception" := rfl

/-- Claim C8 (amended): each known index is created only when absent and a
repeated call with both indices present performs no create at all, but any
error raised by the create step — including a duplicate-create error from
a creation race — propagates and is fatal to the invocation. -/
theorem C8_create_if_absent (existsQ : String → Bool)
    (createQ : String → Except String Unit) :
    ((existsQ "user-events" = true ∧ existsQ "product-catalog" = true) →
      DataProcessor.create_opensearch_indices existsQ createQ = .ok []) ∧
    ((∀ n, createQ n = .ok ()) →
      DataProcessor.create_opensearch_indices existsQ createQ
        = .ok ((if existsQ "user-events" then [] else ["user-events"])
            ++ (if existsQ "product-catalog" then [] else ["product-catalog"]))) ∧
    (∀ m, existsQ "user-events" = false → createQ "user-events" = .error m →
      DataProcessor.create_opensearch_indices existsQ createQ = .error m) := by
  refine ⟨fun h => ?_, fun hc => ?_, fun m h1 h2 => ?_⟩
  · simp [DataProcessor.create_opensearch_indices,
      DataProcessor.createIndexIfAbsent, h.1, h.2, exc_ok_bind]
  · by_cases e1 : existsQ "user-events" <;> by_cases e2 : existsQ "product-catalog" <;>
      simp [DataProcessor.create_opensearch_indices,
        DataProcessor.createIndexIfAbsent, e1, e2, hc, exc_ok_bind]
  · simp [DataProcessor.create_opensearch_indices,
      DataProcessor.createIndexIfAbsent, h1, h2, exc_error_bind]

/-- Witness for C8 at concrete oracles: both-present performs no create,
all-absent creates both, and an erroring create propagates. -/
theorem C8_create_if_absent_witness :
    DataProcessor.create_opensearch_indices exExistsAll exCreateOk = .ok [] ∧
    DataProcessor.create_opensearch_indices exExistsNone exCreateOk
      = .ok ["user-events", "product-catalog"] ∧
    DataProcessor.create_opensearch_indices exExistsNone exCreateRace
      = .error "resource_already_exists_exception" := by
  refine ⟨(C8_create_if_absent exExistsAll exCreateOk).1 ⟨rfl, rfl⟩, ?_,
    (C8_create_if_absent exExistsNone exCreateRace).2.2 _ rfl rfl⟩
  have h := (C8_create_if_absent exExistsNone exCreateOk).2.1 (fun _ => rfl)
  simpa [exExistsNone] using h

/-! C4: daily counter monotonicity. -/


theorem cacheEventsSeq_append (today : String) (l1 l2 : List DataProcessor.Event)
    (db : RedisDB) :
    cacheEventsSeq today db (l1 ++ l2)
      = (cacheEventsSeq today db l1 >>= fun d => cacheEventsSeq today d l2) := by
  induction l1 generalizing db with
  | nil => simp [cacheEventsSeq, exc_ok_bind]
  | cons e rest ih =>
    cases hc : DataProcessor.cache_user_data today db e <;>
      simp [cacheEventsSeq, hc, ih, exc_error_bind, exc_ok_bind]

theorem cacheEventsSeq_ctr (today : String) (events : List DataProcessor.Event)
    (db dbN : RedisDB) (m : Int)
    (hall : ∀ e ∈ events, e.event_type = "purchase")
    (hm : ctrOpt db (counterKey today "purchase") = some m)
    (h : cacheEventsSeq today db events = .ok dbN) :
    ctrOpt dbN (counterKey today "purchase") = some (m + events.length) := by
  induction events generalizing db m with
  | nil =>
    cases h
    simpa using hm
  | cons e rest ih =>
    unfold cacheEventsSeq at h
    cases hc : DataProcessor.cache_user_data today db e with
    | error m1 => rw [hc] at h; cases h
    | ok db1 =>
      rw [hc] at h
      have hety : e.event_type = "purchase" := hall e (List.mem_cons_self _ _)
      obtain ⟨m0, hm0, hstep⟩ :=
        (cache_user_data_effects today db db1 e hc).2.2.2.2.2
      rw [hety] at hm0 hstep
      have hm0m : m0 = m := by
        rw [hm0] at hm
        exact Option.some.inj hm
      subst hm0m
      have hnext : ctrOpt db1 (counterKey today "purchase") = some (m0 + 1) := by
        unfold ctrOpt
        rw [hstep]
      have hfin := ih db1 (m0 + 1)
        (fun x hx => hall x (List.mem_cons_of_mem _ hx)) hnext h
      rw [hfin]
      congr 1
      simp [List.length_cons]
      ring

/-- Claim C4: for a sequence of successfully cached purchase events on one
date starting from an absent counter key, the daily purchase counter
equals the number of events, and over any prefix of the sequence its value
never decreases. -/
theorem C4_counter_monotonicity (today : String) (db dbN : RedisDB)
    (events : List DataProcessor.Event)
    (hall : ∀ e ∈ events, e.event_type = "purchase")
    (h0 : dbGet db (counterKey today "purchase") = none)
    (h : cacheEventsSeq today db events = .ok dbN) :
    counterValue dbN (counterKey today "purchase") = events.length ∧
    (∀ l1 l2 dbMid, events = l1 ++ l2 →
        cacheEventsSeq today db l1 = .ok dbMid →
        counterValue dbMid (counterKey today "purchase")
          ≤ counterValue dbN (counterKey today "purchase")) := by
  have hm0 : ctrOpt db (counterKey today "purchase") = some 0 := by
    unfold ctrOpt
    rw [h0]
  have hN := cacheEventsSeq_ctr today events db dbN 0 hall hm0 h
  have hNval : counterValue dbN (counterKey today "purchase")
      = 0 + events.length := counterValue_of_ctrOpt _ _ _ hN
  constructor
  · rw [hNval]
    ring
  · intro l1 l2 dbMid hsplit hmid
    have hallm : ∀ e ∈ l1, e.event_type = "purchase" := fun e he =>
      hall e (hsplit ▸ List.mem_append_left _ he)
    have hmidctr := cacheEventsSeq_ctr today l1 db dbMid 0 hallm hm0 hmid
    have hmidval := counterValue_of_ctrOpt _ _ _ hmidctr
    rw [hmidval, hNval, hsplit]
    simp [List.length_append]

/-- Witness for C4: two purchase events on an empty store leave the
counter at 2. -/
theorem C4_counter_monotonicity_witness :
    counterValue ((cacheEventsSeq exToday emptyDb
        [exEventPurchase, exEventPurchase2]).toOption.getD emptyDb)
      (counterKey exToday "purchase") = 2 := by
  have h := C4_counter_monotonicity exToday emptyDb
      ((cacheEventsSeq exToday emptyDb
        [exEventPurchase, exEventPurchase2]).toOption.getD emptyDb)
      [exEventPurchase, exEventPurchase2] (by decide) (by rfl) (by rfl)
  simpa using h.1

/-! C5: TTL fixed by key class. -/

/-- Claim C5: every cache write stamps the written key with the TTL
constant of its key class, independent of record content — session 3600,
user 86400, daily counters 604800, popular_products 86400, daily search
queries 604800, product 3600, category set 86400, product-search pointer
3600.  Equality with the constant in this zero-elapsed-time model gives in
particular a TTL that is positive and at most the class constant
immediately after the write. -/
theorem C5_ttl_by_key_class (today : String) (db db2 dbU dbP : RedisDB)
    (e : DataProcessor.Event) (p : DataProcessor.Product)
    (hU : DataProcessor.cache_user_data today db e = .ok dbU)
    (hP : DataProcessor.cache_product_data db2 p = .ok dbP) :
    rTtl dbU ("session:" ++ e.session_id) = 3600 ∧
    rTtl dbU ("user:" ++ e.user_id) = 86400 ∧
    rTtl dbU (counterKey today e.event_type) = 604800 ∧
    (e.product_id.isSome = true → rTtl dbU "popular_products" = 86400) ∧
    (e.event_type = "search" → e.search_query.isSome = true →
        rTtl dbU ("search_queries:" ++ today) = 604800) ∧
    rTtl dbP ("product:" ++ p.id) = 3600 ∧
    rTtl dbP ("category_products:" ++ p.category) = 86400 ∧
    rTtl dbP ("product_search:" ++ strLower p.name) = 3600 := by
  obtain ⟨h1, h2, h3, h4, h5, _⟩ := cache_user_data_effects today db dbU e hU
  obtain ⟨g1, g2, g3⟩ := cache_product_data_effects db2 dbP p hP
  exact ⟨h1, h2, h3, h4, h5, g1, g2, g3⟩

/-- Witness for C5 on a search event carrying a product id and a product
record, both cached from the empty store. -/
theorem C5_ttl_by_key_class_witness :
    rTtl ((DataProcessor.cache_user_data exToday emptyDb
        exEventFull).toOption.getD emptyDb) ("session:" ++ exEventFull.session_id)
      = 3600 ∧
    rTtl ((DataProcessor.cache_user_data exToday emptyDb
        exEventFull).toOption.getD emptyDb) ("user:" ++ exEventFull.user_id)
      = 86400 ∧
    rTtl ((DataProcessor.cache_user_data exToday emptyDb
        exEventFull).toOption.getD emptyDb) (counterKey exToday "search")
      = 604800 ∧
    rTtl ((DataProcessor.cache_user_data exToday emptyDb
        exEventFull).toOption.getD emptyDb) "popular_products" = 86400 ∧
    rTtl ((DataProcessor.cache_user_data exToday emptyDb
        exEventFull).toOption.getD emptyDb) ("search_queries:" ++ exToday)
      = 604800 ∧
    rTtl ((DataProcessor.cache_product_data emptyDb
        exProduct).toOption.getD emptyDb) ("product:" ++ exProduct.id) = 3600 ∧
    rTtl ((DataProcessor.cache_product_data emptyDb
        exProduct).toOption.getD emptyDb)
      ("category_products:" ++ exProduct.category) = 86400 ∧
    rTtl ((DataProcessor.cache_product_data emptyDb
        exProduct).toOption.getD emptyDb)
      ("product_search:" ++ strLower exProduct.name) = 3600 := by
  have h := C5_ttl_by_key_class exToday emptyDb emptyDb
      ((DataProcessor.cache_user_data exToday emptyDb
        exEventFull).toOption.getD emptyDb)
      ((DataProcessor.cache_product_data emptyDb
        exProduct).toOption.getD emptyDb)
      exEventFull exProduct (by rfl) (by rfl)
  exact ⟨h.1, h.2.1, h.2.2.1, h.2.2.2.1 rfl, h.2.2.2.2.1 rfl rfl,
    h.2.2.2.2.2.1, h.2.2.2.2.2.2.1, h.2.2.2.2.2.2.2⟩


/-! C2: cache-aside consistency of repeated searches. -/

/-- Claim C2: a search that misses the cache and succeeds against the
document store writes the formatted result under the fingerprint key with
a 300-second TTL, and an immediately repeated search with the identical
(query, index, size) parameters returns `cached = true` with the identical
results object. -/
theorem C2_cache_aside_consistency (env : ApiHandler.ApiEnv) (db db1 : RedisDB)
    (s s1 : ApiHandler.ApiState) (p : ApiHandler.QueryParams) (q i : String)
    (r : Results) (tr : List ApiHandler.ROp)
    (h : ApiHandler.handle_search env db s p
      = .ok (.results q i false r, db1, s1, tr)) :
    ∃ ck, ApiHandler.requestCacheKey p = .ok ck ∧
      dbGet db1 ck = some (.json r) ∧ rTtl db1 ck = 300 ∧
      ApiHandler.handle_search env db1 s1 p
        = .ok (.results q i true r, db1, s1, [.rget ck]) := by
  unfold ApiHandler.handle_search at h
  cases hos : ApiHandler.get_opensearch_client env s with
  | error m => rw [hos, exc_error_bind] at h; cases h
  | ok sA =>
  simp only [hos, exc_ok_bind] at h
  cases hrc : ApiHandler.get_redis_client env sA with
  | error m => rw [hrc, exc_error_bind] at h; cases h
  | ok rp =>
  simp only [hrc, exc_ok_bind] at h
  cases hsi : ApiHandler.searchAfterInit env.osSearch db p with
  | error m => simp only [hsi] at h; cases h
  | ok t =>
  simp only [hsi] at h
  obtain ⟨t1, tdb, tops⟩ := t
  have hinj := Except.ok.inj h
  simp only [Prod.mk.injEq] at hinj
  obtain ⟨ht1, htdb, hs1, htr⟩ := hinj
  subst ht1
  subst htdb
  subst hs1
  obtain ⟨ck, hkey, hget, httl, hsecond⟩ :=
    searchAfterInit_spec env.osSearch db tdb p q i r tops hsi
  refine ⟨ck, hkey, hget, httl, ?_⟩
  have hosi : rp.1.osInited = true := by
    rw [(get_redis_ok_inv env sA rp hrc).2]
    exact get_os_ok_inv env s sA hos
  have hrdi : rp.1.redisInited = true := (get_redis_ok_inv env sA rp hrc).1
  unfold ApiHandler.handle_search
  rw [get_os_idem env rp.1 hosi, exc_ok_bind,
    get_redis_idem env rp.1 hrdi, exc_ok_bind]
  simp only [hsecond]
  rfl

/-- Witness for C2: the concrete smartphone search on the empty store. -/
theorem C2_cache_aside_consistency_witness :
    ∃ ck, ApiHandler.requestCacheKey exParamsSearch = .ok ck ∧
      dbGet exDb1 ck = some (.json exResults) ∧ rTtl exDb1 ck = 300 ∧
      ApiHandler.handle_search exEnv exDb1 ⟨true, true⟩ exParamsSearch
        = .ok (.results "smartphone" "user-events" true exResults, exDb1,
               ⟨true, true⟩, [.rget ck]) :=
  C2_cache_aside_consistency exEnv emptyDb exDb1 ⟨false, false⟩ ⟨true, true⟩
    exParamsSearch "smartphone" "user-events" exResults
    [.ping, .rget exCk, .rsetex exCk] rfl

/-! C6: client initialization precedes parameter validation. -/

/-- Claim C6, counterexample: with an uninitialized client, a cache lookup
with neither key nor pattern and a user lookup without user_id still
initialize the Redis client first — the connection ping is issued before
the validation check (trace `[ping]`), and when that ping fails the
request raises and is answered 500, not 400. -/
theorem C6_counterexample :
    ApiHandler.handle_cache_lookup exEnv emptyDb ⟨false, false⟩ exParamsNone
      = .ok (.badRequest "Either key or pattern parameter is required",
             ⟨false, true⟩, [.ping]) ∧
    ApiHandler.handle_user_lookup exEnv emptyDb ⟨false, false⟩ exParamsNone
      = .ok (.badRequest "user_id parameter is required",
             ⟨false, true⟩, [.ping]) ∧
    ApiHandler.handle_cache_lookup exEnvNoPing emptyDb ⟨false, false⟩ exParamsNone
      = .error "Error initializing Redis client" :=
  ⟨rfl, rfl, rfl⟩

/-- Claim C6 (amended): when the Redis client is available, a cache lookup
with neither key nor pattern and a user lookup without user_id are both
answered with the 400-equivalent validation error and no store data
operation — but client initialization runs first, so on first use the
connection ping precedes the validation check. -/
theorem C6_validation_after_client_init (env : ApiHandler.ApiEnv) (db : RedisDB)
    (s : ApiHandler.ApiState) (p : ApiHandler.QueryParams)
    (hk : ApiHandler.truthy p.key = false)
    (hp2 : ApiHandler.truthy p.pattern = false)
    (hu : ApiHandler.truthy p.user_id = false)
    (hinit : s.redisInited = true ∨ env.redisInitOk = true) :
    ∃ s1 tr, (tr = [] ∨ tr = [ApiHandler.ROp.ping]) ∧
      ApiHandler.handle_cache_lookup env db s p
        = .ok (.badRequest "Either key or pattern parameter is required", s1, tr) ∧
      ApiHandler.handle_user_lookup env db s p
        = .ok (.badRequest "user_id parameter is required", s1, tr) := by
  by_cases hri : s.redisInited = true
  · refine ⟨s, [], Or.inl rfl, ?_, ?_⟩
    · simp only [ApiHandler.handle_cache_lookup, get_redis_idem env s hri,
        exc_ok_bind, hk, hp2, Bool.not_false, Bool.and_self, if_true]
      rfl
    · simp only [ApiHandler.handle_user_lookup, get_redis_idem env s hri,
        exc_ok_bind, hu, Bool.not_false, if_true]
      rfl
  · have hro : env.redisInitOk = true := hinit.resolve_left hri
    have hgr : ApiHandler.get_redis_client env s
        = .ok ({ s with redisInited := true }, [.ping]) := by
      unfold ApiHandler.get_redis_client
      simp [hri, hro]
    refine ⟨{ s with redisInited := true }, [.ping], Or.inr rfl, ?_, ?_⟩
    · simp only [ApiHandler.handle_cache_lookup, hgr, exc_ok_bind, hk, hp2,
        Bool.not_false, Bool.and_self, if_true]
      rfl
    · simp only [ApiHandler.handle_user_lookup, hgr, exc_ok_bind, hu,
        Bool.not_false, if_true]
      rfl

/-- Witness for C6 at the concrete empty request. -/
theorem C6_validation_after_client_init_witness :
    ∃ s1 tr, (tr = [] ∨ tr = [ApiHandler.ROp.ping]) ∧
      ApiHandler.handle_cache_lookup exEnv emptyDb ⟨false, false⟩ exParamsNone
        = .ok (.badRequest "Either key or pattern parameter is required", s1, tr) ∧
      ApiHandler.handle_user_lookup exEnv emptyDb ⟨false, false⟩ exParamsNone
        = .ok (.badRequest "user_id parameter is required", s1, tr) :=
  C6_validation_after_client_init exEnv emptyDb ⟨false, false⟩ exParamsNone
    rfl rfl rfl (Or.inr rfl)

/-! C7 and C9: pattern-mode lookup. -/


theorem decodePatternKeys_fst (db : RedisDB) (ks : List String) :
    (ApiHandler.decodePatternKeys db ks).map Prod.fst
      = ks.filter (fun k => dbType db k == "string" || dbType db k == "hash") := by
  induction ks with
  | nil => rfl
  | cons k rest ih =>
    by_cases h1 : dbType db k = "string"
    · simp [ApiHandler.decodePatternKeys, List.filterMap_cons, List.filter_cons,
        h1, ih]
      exact ih
    · by_cases h2 : dbType db k = "hash"
      · simp [ApiHandler.decodePatternKeys, List.filterMap_cons, List.filter_cons,
          h1, h2, ih]
        exact ih
      · simp [ApiHandler.decodePatternKeys, List.filterMap_cons, List.filter_cons,
          h1, h2, ih]
        exact ih

theorem decodePatternKeys_length_all (db : RedisDB) (ks : List String)
    (h : ∀ k ∈ ks, dbType db k = "hash" ∨ dbType db k = "string") :
    (ApiHandler.decodePatternKeys db ks).length = ks.length := by
  induction ks with
  | nil => rfl
  | cons k rest ih =>
    have hk := h k (List.mem_cons_self _ _)
    have hr := ih (fun x hx => h x (List.mem_cons_of_mem _ hx))
    rcases hk with hk | hk <;>
      simp [ApiHandler.decodePatternKeys, List.filterMap_cons, hk] <;>
      simpa [ApiHandler.decodePatternKeys] using hr

theorem handle_cache_lookup_pattern (env : ApiHandler.ApiEnv) (db : RedisDB)
    (s : ApiHandler.ApiState) (p : ApiHandler.QueryParams) (pt : String)
    (hk : ApiHandler.truthy p.key = false) (hpt : p.pattern = some pt)
    (hne : pt ≠ "") (hinit : s.redisInited = true ∨ env.redisInitOk = true) :
    ∃ s1 tr, (tr = [] ∨ tr = [ApiHandler.ROp.ping]) ∧
      ApiHandler.handle_cache_lookup env db s p
        = .ok (.patternResult pt
            (ApiHandler.decodePatternKeys db (capKeys db pt)).length
            (ApiHandler.decodePatternKeys db (capKeys db pt)), s1,
            tr ++ [.rkeys pt] ++ ApiHandler.patternOps db (capKeys db pt)) := by
  have htp : ApiHandler.truthy p.pattern = true := by
    simp [hpt, ApiHandler.truthy, hne]
  have htp2 : ApiHandler.truthy (some pt) = true := by
    simp [ApiHandler.truthy, hne]
  by_cases hri : s.redisInited = true
  · refine ⟨s, [], Or.inl rfl, ?_⟩
    simp only [ApiHandler.handle_cache_lookup, get_redis_idem env s hri,
      exc_ok_bind, hk, htp, htp2, hpt, Bool.not_false, Bool.not_true,
      Bool.and_false, if_false, Bool.false_and, if_true, Option.getD_some]
    rfl
  · have hro : env.redisInitOk = true := hinit.resolve_left hri
    have hgr : ApiHandler.get_redis_client env s
        = .ok ({ s with redisInited := true }, [.ping]) := by
      unfold ApiHandler.get_redis_client
      simp [hri, hro]
    refine ⟨{ s with redisInited := true }, [.ping], Or.inr rfl, ?_⟩
    simp only [ApiHandler.handle_cache_lookup, hgr, exc_ok_bind, hk, htp, htp2,
      hpt, Bool.not_false, Bool.not_true, Bool.and_false, if_false,
      Bool.false_and, if_true, Option.getD_some]
    rfl

/-- Claim C7, counterexample: a pattern lookup matching one set-typed key
returns an empty result map with count 0 — the unsupported-type key is
silently omitted, not reported as "unsupported", and the count does not
reflect the one post-cap matched key. -/
theorem C7_counterexample :
    ApiHandler.handle_cache_lookup exEnv exSetDb ⟨true, true⟩ exParamsPatternStar
      = .ok (.patternResult "*" 0 [], ⟨true, true⟩,
             [.rkeys "*", .rtypeOf "zk"]) ∧
    dbKeys exSetDb "*" = ["zk"] :=
  ⟨rfl, rfl⟩

/-- Claim C7 (amended): a pattern-mode lookup always succeeds; matched
keys whose type is neither string nor hash are silently omitted from the
result map (nothing is reported for them and the request does not fail),
and the returned count equals the number of entries actually decoded,
which is the string/hash subset of the capped matches. -/
theorem C7_pattern_unsupported_skipped (env : ApiHandler.ApiEnv) (db : RedisDB)
    (s : ApiHandler.ApiState) (p : ApiHandler.QueryParams) (pt : String)
    (hk : ApiHandler.truthy p.key = false) (hpt : p.pattern = some pt)
    (hne : pt ≠ "") (hinit : s.redisInited = true ∨ env.redisInitOk = true) :
    ∃ s1 tr res,
      ApiHandler.handle_cache_lookup env db s p
        = .ok (.patternResult pt res.length res, s1, tr) ∧
      res = ApiHandler.decodePatternKeys db (capKeys db pt) ∧
      res.map Prod.fst = (capKeys db pt).filter
          (fun k => dbType db k == "string" || dbType db k == "hash") := by
  obtain ⟨s1, tr0, _, hres⟩ :=
    handle_cache_lookup_pattern env db s p pt hk hpt hne hinit
  exact ⟨s1, tr0 ++ [.rkeys pt] ++ ApiHandler.patternOps db (capKeys db pt),
    ApiHandler.decodePatternKeys db (capKeys db pt), hres, rfl,
    decodePatternKeys_fst db (capKeys db pt)⟩

/-- Witness for C7 on the store with one set-typed key. -/
theorem C7_pattern_unsupported_skipped_witness :
    ∃ s1 tr res,
      ApiHandler.handle_cache_lookup exEnv exSetDb ⟨true, true⟩ exParamsPatternStar
        = .ok (.patternResult "*" res.length res, s1, tr) ∧
      res = ApiHandler.decodePatternKeys exSetDb (capKeys exSetDb "*") ∧
      res.map Prod.fst = (capKeys exSetDb "*").filter
          (fun k => dbType exSetDb k == "string" || dbType exSetDb k == "hash") :=
  C7_pattern_unsupported_skipped exEnv exSetDb ⟨true, true⟩ exParamsPatternStar
    "*" rfl rfl (by decide) (Or.inl rfl)

/-- Claim C9: when more than 100 keys match the pattern and the first 100
matches are hash- or string-typed (as for `user:*`), the lookup succeeds,
decodes only the first 100 matched keys, and returns exactly 100 entries
with count 100. -/
theorem C9_pattern_cap (env : ApiHandler.ApiEnv) (db : RedisDB)
    (s : ApiHandler.ApiState) (p : ApiHandler.QueryParams) (pt : String)
    (hk : ApiHandler.truthy p.key = false) (hpt : p.pattern = some pt)
    (hne : pt ≠ "") (hinit : s.redisInited = true ∨ env.redisInitOk = true)
    (hlen : (dbKeys db pt).length > 100)
    (htypes : ∀ k ∈ (dbKeys db pt).take 100,
        dbType db k = "hash" ∨ dbType db k = "string") :
    ∃ s1 tr res, ApiHandler.handle_cache_lookup env db s p
        = .ok (.patternResult pt 100 res, s1, tr) ∧ res.length = 100 := by
  obtain ⟨s1, tr0, _, hres⟩ :=
    handle_cache_lookup_pattern env db s p pt hk hpt hne hinit
  have hcap : capKeys db pt = (dbKeys db pt).take 100 := by
    unfold capKeys
    rw [if_pos hlen]
  have hlen100 : (ApiHandler.decodePatternKeys db (capKeys db pt)).length = 100 := by
    rw [hcap, decodePatternKeys_length_all db _ (hcap ▸ htypes), List.length_take]
    omega
  refine ⟨s1, tr0 ++ [.rkeys pt] ++ ApiHandler.patternOps db (capKeys db pt),
    ApiHandler.decodePatternKeys db (capKeys db pt), ?_, hlen100⟩
  rw [hres, hlen100]

set_option maxRecDepth 4000 in
/-- Witness for C9: 101 cached user hashes and the pattern `user:*`. -/
theorem C9_pattern_cap_witness :
    ∃ s1 tr res, ApiHandler.handle_cache_lookup exEnv manyUsersDb ⟨true, true⟩
        exParamsUserPattern
        = .ok (.patternResult "user:*" 100 res, s1, tr) ∧ res.length = 100 :=
  C9_pattern_cap exEnv manyUsersDb ⟨true, true⟩ exParamsUserPattern "user:*"
    rfl rfl (by decide) (Or.inl rfl) (by decide) (by decide)

/-! C10: unparseable size parameter yields a 500, not a 400. -/

theorem get_os_preserves_redis (env : ApiHandler.ApiEnv)
    (s sA : ApiHandler.ApiState)
    (h : ApiHandler.get_opensearch_client env s = .ok sA) :
    sA.redisInited = s.redisInited := by
  unfold ApiHandler.get_opensearch_client at h
  split at h
  · cases h; rfl
  · split at h
    · cases h; rfl
    · cases h

/-- Claim C10: a search request whose size parameter does not parse as an
integer raises at the conversion itself — `handle_search` produces no
validation response — and the routed request is answered by the top-level
handler with the 500-equivalent error body carrying the conversion
message. -/
theorem C10_unparseable_size_500 (env : ApiHandler.ApiEnv) (db : RedisDB)
    (s : ApiHandler.ApiState) (p : ApiHandler.QueryParams) (t : String)
    (hsz : p.size = some t) (hbad : pyInt t = none)
    (hos : s.osInited = true ∨ env.osInitOk = true)
    (hrd : s.redisInited = true ∨ env.redisInitOk = true) :
    ApiHandler.lambda_handler_search env db s p
      = .serverError ("invalid literal for int with base 10: " ++ t) ∧
    (ApiHandler.lambda_handler_search env db s p).statusCode = 500 := by
  have hps : ApiHandler.parseSize p.size
      = .error ("invalid literal for int with base 10: " ++ t) := by
    unfold ApiHandler.parseSize
    rw [hsz]
    simp [hbad]
  have hsai : ApiHandler.searchAfterInit env.osSearch db p
      = .error ("invalid literal for int with base 10: " ++ t) := by
    unfold ApiHandler.searchAfterInit
    rw [hps, exc_error_bind]
  have hosA : ∃ sA, ApiHandler.get_opensearch_client env s = .ok sA := by
    by_cases hi : s.osInited = true
    · exact ⟨s, get_os_idem env s hi⟩
    · have h : env.osInitOk = true := hos.resolve_left hi
      exact ⟨{ s with osInited := true }, by
        unfold ApiHandler.get_opensearch_client
        simp [hi, h]⟩
  obtain ⟨sA, hA⟩ := hosA
  have hrdA : ∃ rp, ApiHandler.get_redis_client env sA = .ok rp := by
    by_cases hi : sA.redisInited = true
    · exact ⟨(sA, []), get_redis_idem env sA hi⟩
    · have h : env.redisInitOk = true := by
        rcases hrd with h | h
        · exact absurd (get_os_preserves_redis env s sA hA ▸ h) hi
        · exact h
      exact ⟨({ sA with redisInited := true }, [.ping]), by
        unfold ApiHandler.get_redis_client
        simp [hi, h]⟩
  obtain ⟨rp, hB⟩ := hrdA
  have hmain : ApiHandler.lambda_handler_search env db s p
      = .serverError ("invalid literal for int with base 10: " ++ t) := by
    unfold ApiHandler.lambda_handler_search ApiHandler.handle_search
    rw [hA, exc_ok_bind, hB, exc_ok_bind, hsai]
  exact ⟨hmain, by rw [hmain]; rfl⟩

/-- Witness for C10 at the concrete request with size `abc`. -/
theorem C10_unparseable_size_500_witness :
    ApiHandler.lambda_handler_search exEnv emptyDb ⟨false, false⟩ exParamsBadSize
      = .serverError ("invalid literal for int with base 10: " ++ "abc") ∧
    (ApiHandler.lambda_handler_search exEnv emptyDb ⟨false, false⟩
        exParamsBadSize).statusCode = 500 :=
  C10_unparseable_size_500 exEnv emptyDb ⟨false, false⟩ exParamsBadSize "abc"
    rfl rfl (Or.inr rfl) (Or.inr rfl)
